import Mathlib

/-!
Shallow embedding of the stc-parse.h DDS/KTX texture parser (v1.0.0)
and proofs about its specification claims.

Buffers are byte lists (`List Nat`); C `int` is modelled as `Int`,
`uint32_t` loads as little-endian decodes of four bytes; C `/` on int
is `Int.div` (truncation toward zero) and `>>` on a signed int is an
arithmetic shift (`Int.fdiv _ 2`).  Uninitialized stack memory that a
short `memcpy` leaves behind (the DXGI header read) is made explicit as
a `junk` byte-list parameter.
-/

/-- Little-endian 32-bit load of four consecutive bytes of a list
(out-of-range reads give 0; parse paths only decode fully-read slices). -/
def le32At (l : List Nat) (i : Nat) : Nat :=
  l.getD i 0 ||| (l.getD (i+1) 0 <<< 8) ||| (l.getD (i+2) 0 <<< 16) ||| (l.getD (i+3) 0 <<< 24)

/-- C cast `(int)x` of a `uint32_t` value: two's-complement reinterpretation. -/
def toInt32 (n : Nat) : Int :=
  if n % 4294967296 < 2147483648 then ((n % 4294967296 : Nat) : Int)
  else ((n % 4294967296 : Nat) : Int) - 4294967296

/-- `stc__makefourcc(a,b,c,d)`: `a | b<<8 | c<<16 | d<<24`. -/
def stc__makefourcc (a b c d : Nat) : Nat :=
  a ||| (b <<< 8) ||| (c <<< 16) ||| (d <<< 24)

/-- `stc__max(a, b) = ((a) > (b) ? (a) : (b))`. -/
def stc__max (a b : Int) : Int := if a > b then a else b

/-- `stc__min(a, b) = ((a) < (b) ? (a) : (b))`. -/
def stc__min (a b : Int) : Int := if a < b then a else b

/-- `stc__align_mask(v, 3)`: round `v` up to a multiple of 4
(two's-complement `(v+3) & ~3`). -/
def stc__align4 (v : Int) : Int := (v + 3) - (v + 3).emod 4

/-- C signed `>>= 1` (arithmetic shift right by one bit). -/
def sar1 (x : Int) : Int := Int.fdiv x 2

/-- `STC__DDS_MAGIC`: fourcc "DDS ". -/
def STC__DDS_MAGIC : Nat := stc__makefourcc 68 68 83 32

/-- `STC__KTX_MAGIC`: fourcc 0xAB 'K' 'T' 'X'. -/
def STC__KTX_MAGIC : Nat := stc__makefourcc 171 75 84 88

/-- `STC__DDS_DX10`: fourcc "DX10". -/
def STC__DDS_DX10 : Nat := stc__makefourcc 68 88 49 48

/-- `stc_texture_flags` bit values. -/
def STC_TEXTURE_FLAG_CUBEMAP : Nat := 1

def STC_TEXTURE_FLAG_SRGB : Nat := 2

def STC_TEXTURE_FLAG_ALPHA : Nat := 4

def STC_TEXTURE_FLAG_DDS : Nat := 8

def STC_TEXTURE_FLAG_KTX : Nat := 16

/-- Sentinel between the compressed and the uncompressed group of
`stc_texture_format` (ordinal 26 in the C enumeration). -/
def STC_FORMAT_COMPRESSED_SENTINEL : Nat := 26

/-- `_STC_FORMAT_COUNT` (ordinal 45). -/
def STC_FORMAT_COUNT : Nat := 45

/-- `stc_sub_data`: the sub-image view.  The C `const void* buff`
pointer is modelled as the byte offset of the view into the file. -/
structure stc_sub_data where
  buffOff : Int
  width : Int
  height : Int
  size_bytes : Int
  row_pitch_bytes : Int
deriving DecidableEq, Repr

/-- `stc_texture_container`: the parsed texture descriptor.
`format` is the C enum ordinal. -/
structure stc_texture_container where
  data_offset : Int
  size_bytes : Int
  format : Nat
  flags : Nat
  width : Int
  height : Int
  depth : Int
  num_layers : Int
  num_mips : Int
  bpp : Int
  metadata_offset : Int
  metadata_size : Int
deriving DecidableEq, Repr

/-- The all-zero container produced by `stc_memset(tc, 0, sizeof *tc)`. -/
def zeroContainer : stc_texture_container :=
  ⟨0, 0, 0, 0, 0, 0, 0, 0, 0, 0, 0, 0⟩

/-- `stc__mem_reader` without the `buff` pointer (the byte list is passed
separately to `stc__read`). -/
structure stc__mem_reader where
  total : Int
  offset : Int
deriving DecidableEq, Repr

/-- `stc__read(reader, dst, size)`: copies
`read_bytes = (offset + size <= total) ? size : total - offset` bytes,
advances the offset, and returns (copied bytes, count, new reader). -/
def stc__read (buf : List Nat) (r : stc__mem_reader) (size : Int) :
    List Nat × Int × stc__mem_reader :=
  let read_bytes : Int := if r.offset + size ≤ r.total then size else r.total - r.offset
  ((buf.drop r.offset.toNat).take read_bytes.toNat, read_bytes,
    ⟨r.total, r.offset + read_bytes⟩)

/-- `stc__block_info` (all fields are `uint8_t` in C; `Int` here because
they feed C `int` arithmetic in the sub-image locator). -/
structure stc__block_info where
  bpp : Int
  block_width : Int
  block_height : Int
  block_size : Int
  min_block_x : Int
  min_block_y : Int
  depth_bits : Int
  stencil_bits : Int
  r_bits : Int
  g_bits : Int
  b_bits : Int
  a_bits : Int
  encoding : Int
deriving DecidableEq, Repr

instance : Inhabited stc__block_info := ⟨⟨0,0,0,0,0,0,0,0,0,0,0,0,0⟩⟩

/-- Row of `k__translate_dds_fourcc` / `k__translate_dxgi`. -/
structure stc__dds_translate_fourcc_format where
  dds_format : Nat
  format : Nat
  srgb : Bool
deriving DecidableEq, Repr

/-- Row of `k__translate_dds_pixel`. -/
structure stc__dds_translate_pixel_format where
  bit_count : Nat
  flags : Nat
  bit_mask0 : Nat
  bit_mask1 : Nat
  bit_mask2 : Nat
  bit_mask3 : Nat
  format : Nat
deriving DecidableEq, Repr

/-- Row of `k__translate_ktx_fmt` (only `internal_fmt` is consulted by the
parser; the canonical format is the row index). -/
structure stc__ktx_format_info where
  internal_fmt : Nat
  internal_fmt_srgb : Nat
  fmt : Nat
  type : Nat
deriving DecidableEq, Repr

/-- Row of `k__translate_ktx_fmt2`. -/
structure stc__ktx_format_info2 where
  internal_fmt : Nat
  format : Nat
deriving DecidableEq, Repr

/-- Row of `k__formats_info` (display name and default has-alpha flag). -/
structure stc__format_info where
  name : String
  has_alpha : Bool
deriving DecidableEq, Repr

/-- Canonical format ordinals (the C `stc_texture_format` enum values). -/
def STC_FORMAT_BC1 : Nat := 0

def STC_FORMAT_BC2 : Nat := 1

def STC_FORMAT_BC3 : Nat := 2

def STC_FORMAT_BC4 : Nat := 3

def STC_FORMAT_BC5 : Nat := 4

def STC_FORMAT_BC6H : Nat := 5

def STC_FORMAT_BC7 : Nat := 6

def STC_FORMAT_ETC1 : Nat := 7

def STC_FORMAT_ETC2 : Nat := 8

def STC_FORMAT_ETC2A : Nat := 9

def STC_FORMAT_ETC2A1 : Nat := 10

def STC_FORMAT_PTC12 : Nat := 11

def STC_FORMAT_PTC14 : Nat := 12

def STC_FORMAT_PTC12A : Nat := 13

def STC_FORMAT_PTC14A : Nat := 14

def STC_FORMAT_PTC22 : Nat := 15

def STC_FORMAT_PTC24 : Nat := 16

def STC_FORMAT_ATC : Nat := 17

def STC_FORMAT_ATCE : Nat := 18

def STC_FORMAT_ATCI : Nat := 19

def STC_FORMAT_ASTC4x4 : Nat := 20

def STC_FORMAT_ASTC5x5 : Nat := 21

def STC_FORMAT_ASTC6x6 : Nat := 22

def STC_FORMAT_ASTC8x5 : Nat := 23

def STC_FORMAT_ASTC8x6 : Nat := 24

def STC_FORMAT_ASTC10x5 : Nat := 25

def STC_FORMAT_A8 : Nat := 27

def STC_FORMAT_R8 : Nat := 28

def STC_FORMAT_RGBA8 : Nat := 29

def STC_FORMAT_RGBA8S : Nat := 30

def STC_FORMAT_RG16 : Nat := 31

def STC_FORMAT_RGB8 : Nat := 32

def STC_FORMAT_R16 : Nat := 33

def STC_FORMAT_R32F : Nat := 34

def STC_FORMAT_R16F : Nat := 35

def STC_FORMAT_RG16F : Nat := 36

def STC_FORMAT_RG16S : Nat := 37

def STC_FORMAT_RGBA16F : Nat := 38

def STC_FORMAT_RGBA16 : Nat := 39

def STC_FORMAT_BGRA8 : Nat := 40

def STC_FORMAT_RGB10A2 : Nat := 41

def STC_FORMAT_RG11B10F : Nat := 42

def STC_FORMAT_RG8 : Nat := 43

def STC_FORMAT_RG8S : Nat := 44

/-- `k__translate_dds_fourcc` (39 rows, in source order). -/
def k__translate_dds_fourcc : List stc__dds_translate_fourcc_format := [
  ⟨stc__makefourcc 68 88 84 49, STC_FORMAT_BC1, false⟩,   -- DXT1
  ⟨stc__makefourcc 68 88 84 50, STC_FORMAT_BC2, false⟩,   -- DXT2
  ⟨stc__makefourcc 68 88 84 51, STC_FORMAT_BC2, false⟩,   -- DXT3
  ⟨stc__makefourcc 68 88 84 52, STC_FORMAT_BC3, false⟩,   -- DXT4
  ⟨stc__makefourcc 68 88 84 53, STC_FORMAT_BC3, false⟩,   -- DXT5
  ⟨stc__makefourcc 65 84 73 49, STC_FORMAT_BC4, false⟩,   -- ATI1
  ⟨stc__makefourcc 66 67 52 85, STC_FORMAT_BC4, false⟩,   -- BC4U
  ⟨stc__makefourcc 65 84 73 50, STC_FORMAT_BC5, false⟩,   -- ATI2
  ⟨stc__makefourcc 66 67 53 85, STC_FORMAT_BC5, false⟩,   -- BC5U
  ⟨stc__makefourcc 69 84 67 49, STC_FORMAT_ETC1, false⟩,  -- ETC1
  ⟨stc__makefourcc 69 84 67 50, STC_FORMAT_ETC2, false⟩,  -- ETC2
  ⟨stc__makefourcc 69 84 50 65, STC_FORMAT_ETC2A, false⟩, -- ET2A
  ⟨stc__makefourcc 80 84 67 50, STC_FORMAT_PTC12A, false⟩, -- PTC2
  ⟨stc__makefourcc 80 84 67 52, STC_FORMAT_PTC14A, false⟩, -- PTC4
  ⟨stc__makefourcc 65 84 67 32, STC_FORMAT_ATC, false⟩,   -- "ATC "
  ⟨stc__makefourcc 65 84 67 69, STC_FORMAT_ATCE, false⟩,  -- ATCE
  ⟨stc__makefourcc 65 84 67 73, STC_FORMAT_ATCI, false⟩,  -- ATCI
  ⟨stc__makefourcc 65 83 52 52, STC_FORMAT_ASTC4x4, false⟩,  -- AS44
  ⟨stc__makefourcc 65 83 53 53, STC_FORMAT_ASTC5x5, false⟩,  -- AS55
  ⟨stc__makefourcc 65 83 54 54, STC_FORMAT_ASTC6x6, false⟩,  -- AS66
  ⟨stc__makefourcc 65 83 56 53, STC_FORMAT_ASTC8x5, false⟩,  -- AS85
  ⟨stc__makefourcc 65 83 56 54, STC_FORMAT_ASTC8x6, false⟩,  -- AS86
  ⟨stc__makefourcc 65 83 58 53, STC_FORMAT_ASTC10x5, false⟩, -- "AS:5"
  ⟨36, STC_FORMAT_RGBA16, false⟩,   -- STC__DDS_A16B16G16R16
  ⟨113, STC_FORMAT_RGBA16F, false⟩, -- STC__DDS_A16B16G16R16F
  ⟨0x41, STC_FORMAT_BGRA8, false⟩,  -- DDPF_RGB|DDPF_ALPHAPIXELS
  ⟨0x20, STC_FORMAT_R8, false⟩,     -- DDPF_INDEXED
  ⟨0x20000, STC_FORMAT_R8, false⟩,  -- DDPF_LUMINANCE
  ⟨0x2, STC_FORMAT_R8, false⟩,      -- DDPF_ALPHA
  ⟨111, STC_FORMAT_R16F, false⟩,    -- STC__DDS_R16F
  ⟨114, STC_FORMAT_R32F, false⟩,    -- STC__DDS_R32F
  ⟨51, STC_FORMAT_RG8, false⟩,      -- STC__DDS_A8L8
  ⟨34, STC_FORMAT_RG16, false⟩,     -- STC__DDS_G16R16
  ⟨112, STC_FORMAT_RG16F, false⟩,   -- STC__DDS_G16R16F
  ⟨20, STC_FORMAT_RGB8, false⟩,     -- STC__DDS_R8G8B8
  ⟨21, STC_FORMAT_BGRA8, false⟩,    -- STC__DDS_A8R8G8B8
  ⟨36, STC_FORMAT_RGBA16, false⟩,   -- STC__DDS_A16B16G16R16 (dup)
  ⟨113, STC_FORMAT_RGBA16F, false⟩, -- STC__DDS_A16B16G16R16F (dup)
  ⟨31, STC_FORMAT_RGB10A2, false⟩]  -- STC__DDS_A2B10G10R10

/-- `k__translate_dxgi` (26 rows, in source order). -/
def k__translate_dxgi : List stc__dds_translate_fourcc_format := [
  ⟨71, STC_FORMAT_BC1, false⟩,
  ⟨72, STC_FORMAT_BC1, true⟩,
  ⟨74, STC_FORMAT_BC2, false⟩,
  ⟨75, STC_FORMAT_BC2, true⟩,
  ⟨77, STC_FORMAT_BC3, false⟩,
  ⟨78, STC_FORMAT_BC3, true⟩,
  ⟨80, STC_FORMAT_BC4, false⟩,
  ⟨83, STC_FORMAT_BC5, false⟩,
  ⟨96, STC_FORMAT_BC6H, false⟩,
  ⟨98, STC_FORMAT_BC7, false⟩,
  ⟨99, STC_FORMAT_BC7, true⟩,
  ⟨61, STC_FORMAT_R8, false⟩,
  ⟨56, STC_FORMAT_R16, false⟩,
  ⟨54, STC_FORMAT_R16F, false⟩,
  ⟨41, STC_FORMAT_R32F, false⟩,
  ⟨49, STC_FORMAT_RG8, false⟩,
  ⟨35, STC_FORMAT_RG16, false⟩,
  ⟨34, STC_FORMAT_RG16F, false⟩,
  ⟨87, STC_FORMAT_BGRA8, false⟩,
  ⟨91, STC_FORMAT_BGRA8, true⟩,
  ⟨28, STC_FORMAT_RGBA8, false⟩,
  ⟨29, STC_FORMAT_RGBA8, true⟩,
  ⟨11, STC_FORMAT_RGBA16, false⟩,
  ⟨10, STC_FORMAT_RGBA16F, false⟩,
  ⟨24, STC_FORMAT_RGB10A2, false⟩,
  ⟨26, STC_FORMAT_RG11B10F, false⟩]

/-- `k__translate_dds_pixel` (13 rows, in source order). -/
def k__translate_dds_pixel : List stc__dds_translate_pixel_format := [
  ⟨8,  0x20000, 0x000000ff, 0x00000000, 0x00000000, 0x00000000, STC_FORMAT_R8⟩,
  ⟨16, 0x80000, 0x000000ff, 0x0000ff00, 0x00000000, 0x00000000, STC_FORMAT_RG8S⟩,
  ⟨24, 0x40,    0x00ff0000, 0x0000ff00, 0x000000ff, 0x00000000, STC_FORMAT_RGB8⟩,
  ⟨24, 0x40,    0x000000ff, 0x0000ff00, 0x00ff0000, 0x00000000, STC_FORMAT_RGB8⟩,
  ⟨32, 0x40,    0x00ff0000, 0x0000ff00, 0x000000ff, 0x00000000, STC_FORMAT_BGRA8⟩,
  ⟨32, 0x41,    0x000000ff, 0x0000ff00, 0x00ff0000, 0xff000000, STC_FORMAT_RGBA8⟩,
  ⟨32, 0x80000, 0x000000ff, 0x0000ff00, 0x00ff0000, 0xff000000, STC_FORMAT_RGBA8S⟩,
  ⟨32, 0x40,    0x00ff0000, 0x0000ff00, 0x000000ff, 0xff000000, STC_FORMAT_BGRA8⟩,
  ⟨32, 0x41,    0x00ff0000, 0x0000ff00, 0x000000ff, 0xff000000, STC_FORMAT_BGRA8⟩,
  ⟨32, 0x41,    0x00ff0000, 0x0000ff00, 0x000000ff, 0x00000000, STC_FORMAT_BGRA8⟩,
  ⟨32, 0x41,    0x000003ff, 0x000ffc00, 0x3ff00000, 0xc0000000, STC_FORMAT_RGB10A2⟩,
  ⟨32, 0x40,    0x0000ffff, 0xffff0000, 0x00000000, 0x00000000, STC_FORMAT_RG16⟩,
  ⟨32, 0x80000, 0x0000ffff, 0xffff0000, 0x00000000, 0x00000000, STC_FORMAT_RG16S⟩]

/-- `k__translate_ktx_fmt` (45 rows; the canonical format of a match is the
row index). -/
def k__translate_ktx_fmt : List stc__ktx_format_info := [
  ⟨0x83F1, 0x8C4D, 0x83F1, 0⟩,  -- BC1
  ⟨0x83F2, 0x8C4E, 0x83F2, 0⟩,  -- BC2
  ⟨0x83F3, 0x8C4F, 0x83F3, 0⟩,  -- BC3
  ⟨0x8C70, 0, 0x8C70, 0⟩,       -- BC4
  ⟨0x8C72, 0, 0x8C72, 0⟩,       -- BC5
  ⟨0x8E8E, 0, 0x8E8E, 0⟩,       -- BC6H
  ⟨0x8E8C, 0, 0x8E8C, 0⟩,       -- BC7
  ⟨0x8D64, 0, 0x8D64, 0⟩,       -- ETC1
  ⟨0x9274, 0, 0x9274, 0⟩,       -- ETC2
  ⟨0x9278, 0x9275, 0x9278, 0⟩,  -- ETC2A
  ⟨0x9276, 0x9277, 0x9276, 0⟩,  -- ETC2A1
  ⟨0x8C01, 0x8A54, 0x8C01, 0⟩,  -- PTC12
  ⟨0x8C00, 0x8A55, 0x8C00, 0⟩,  -- PTC14
  ⟨0x8C03, 0x8A56, 0x8C03, 0⟩,  -- PTC12A
  ⟨0x8C02, 0x8A57, 0x8C02, 0⟩,  -- PTC14A
  ⟨0x9137, 0, 0x9137, 0⟩,       -- PTC22
  ⟨0x9138, 0, 0x9138, 0⟩,       -- PTC24
  ⟨0x8C92, 0, 0x8C92, 0⟩,       -- ATC
  ⟨0x8C93, 0, 0x8C93, 0⟩,       -- ATCE
  ⟨0x87EE, 0, 0x87EE, 0⟩,       -- ATCI
  ⟨0x93B0, 0x93D0, 0x93B0, 0⟩,  -- ASTC4x4
  ⟨0x93B2, 0x93D2, 0x93B2, 0⟩,  -- ASTC5x5
  ⟨0x93B4, 0x93D4, 0x93B4, 0⟩,  -- ASTC6x6
  ⟨0x93B5, 0x93D5, 0x93B5, 0⟩,  -- ASTC8x5
  ⟨0x93B6, 0x93D6, 0x93B6, 0⟩,  -- ASTC8x6
  ⟨0x93B8, 0x93D8, 0x93B8, 0⟩,  -- ASTC10x5
  ⟨0, 0, 0, 0⟩,                 -- Unknown (sentinel row)
  ⟨0x1906, 0, 0x1906, 0x1401⟩,  -- A8
  ⟨0x8229, 0, 0x1903, 0x1401⟩,  -- R8
  ⟨0x8058, 0x8C43, 0x1908, 0x1401⟩, -- RGBA8
  ⟨0x8F97, 0, 0x1908, 0x1400⟩,  -- RGBA8S
  ⟨0x822C, 0, 0x8227, 0x1403⟩,  -- RG16
  ⟨0x8051, 0x8C41, 0x1907, 0x1401⟩, -- RGB8
  ⟨0x822A, 0, 0x1903, 0x1403⟩,  -- R16
  ⟨0x822E, 0, 0x1903, 0x1406⟩,  -- R32F
  ⟨0x822D, 0, 0x1903, 0x140B⟩,  -- R16F
  ⟨0x822F, 0, 0x8227, 0x1406⟩,  -- RG16F
  ⟨0x8F99, 0, 0x8227, 0x1402⟩,  -- RG16S
  ⟨0x881A, 0, 0x1908, 0x140B⟩,  -- RGBA16F
  ⟨0x805B, 0, 0x1908, 0x1403⟩,  -- RGBA16
  ⟨0x80E1, 0x8C43, 0x80E1, 0x1401⟩, -- BGRA8
  ⟨0x8059, 0, 0x1908, 0x8368⟩,  -- RGB10A2
  ⟨0x8C3A, 0, 0x1907, 0x8C3B⟩,  -- RG11B10F
  ⟨0x822B, 0, 0x8227, 0x1401⟩,  -- RG8
  ⟨0x8F95, 0, 0x8227, 0x1400⟩]  -- RG8S

/-- `k__translate_ktx_fmt2` (fallback table of generic GL format enums). -/
def k__translate_ktx_fmt2 : List stc__ktx_format_info2 := [
  ⟨0x803C, STC_FORMAT_A8⟩,
  ⟨0x1903, STC_FORMAT_R8⟩,
  ⟨0x1907, STC_FORMAT_RGB8⟩,
  ⟨0x1908, STC_FORMAT_RGBA8⟩,
  ⟨0x83F0, STC_FORMAT_BC1⟩]

/-- `k__formats_info` (display name, default has-alpha), 45 rows. -/
def k__formats_info : List stc__format_info := [
  ⟨"BC1", false⟩, ⟨"BC2", true⟩, ⟨"BC3", true⟩, ⟨"BC4", false⟩, ⟨"BC5", false⟩,
  ⟨"BC6H", false⟩, ⟨"BC7", true⟩, ⟨"ETC1", false⟩, ⟨"ETC2", false⟩,
  ⟨"ETC2A", true⟩, ⟨"ETC2A1", true⟩, ⟨"PTC12", false⟩, ⟨"PTC14", false⟩,
  ⟨"PTC12A", true⟩, ⟨"PTC14A", true⟩, ⟨"PTC22", true⟩, ⟨"PTC24", true⟩,
  ⟨"ATC", false⟩, ⟨"ATCE", false⟩, ⟨"ATCI", false⟩, ⟨"ASTC4x4", true⟩,
  ⟨"ASTC5x5", true⟩, ⟨"ASTC6x6", false⟩, ⟨"ASTC8x5", true⟩, ⟨"ASTC8x6", false⟩,
  ⟨"ASTC10x5", false⟩, ⟨"<unknown>", false⟩, ⟨"A8", true⟩, ⟨"R8", false⟩,
  ⟨"RGBA8", true⟩, ⟨"RGBA8S", true⟩, ⟨"RG16", false⟩, ⟨"RGB8", false⟩,
  ⟨"R16", false⟩, ⟨"R32F", false⟩, ⟨"R16F", false⟩, ⟨"RG16F", false⟩,
  ⟨"RG16S", false⟩, ⟨"RGBA16F", true⟩, ⟨"RGBA16", true⟩, ⟨"BGRA8", true⟩,
  ⟨"RGB10A2", true⟩, ⟨"RG11B10F", false⟩, ⟨"RG8", false⟩, ⟨"RG8S", false⟩]

/-- `k__block_info`, 45 rows: bpp, block width/height, block size, min
blocks x/y, depth/stencil bits, r/g/b/a bits, encoding
(0 = UNORM, 1 = SNORM, 2 = FLOAT, 5 = COUNT). -/
def k__block_info : List stc__block_info := [
  ⟨4, 4, 4, 8, 1, 1, 0, 0, 0, 0, 0, 0, 0⟩,     -- BC1
  ⟨8, 4, 4, 16, 1, 1, 0, 0, 0, 0, 0, 0, 0⟩,    -- BC2
  ⟨8, 4, 4, 16, 1, 1, 0, 0, 0, 0, 0, 0, 0⟩,    -- BC3
  ⟨4, 4, 4, 8, 1, 1, 0, 0, 0, 0, 0, 0, 0⟩,     -- BC4
  ⟨8, 4, 4, 16, 1, 1, 0, 0, 0, 0, 0, 0, 0⟩,    -- BC5
  ⟨8, 4, 4, 16, 1, 1, 0, 0, 0, 0, 0, 0, 2⟩,    -- BC6H
  ⟨8, 4, 4, 16, 1, 1, 0, 0, 0, 0, 0, 0, 0⟩,    -- BC7
  ⟨4, 4, 4, 8, 1, 1, 0, 0, 0, 0, 0, 0, 0⟩,     -- ETC1
  ⟨4, 4, 4, 8, 1, 1, 0, 0, 0, 0, 0, 0, 0⟩,     -- ETC2
  ⟨8, 4, 4, 16, 1, 1, 0, 0, 0, 0, 0, 0, 0⟩,    -- ETC2A
  ⟨4, 4, 4, 8, 1, 1, 0, 0, 0, 0, 0, 0, 0⟩,     -- ETC2A1
  ⟨2, 8, 4, 8, 2, 2, 0, 0, 0, 0, 0, 0, 0⟩,     -- PTC12
  ⟨4, 4, 4, 8, 2, 2, 0, 0, 0, 0, 0, 0, 0⟩,     -- PTC14
  ⟨2, 8, 4, 8, 2, 2, 0, 0, 0, 0, 0, 0, 0⟩,     -- PTC12A
  ⟨4, 4, 4, 8, 2, 2, 0, 0, 0, 0, 0, 0, 0⟩,     -- PTC14A
  ⟨2, 8, 4, 8, 2, 2, 0, 0, 0, 0, 0, 0, 0⟩,     -- PTC22
  ⟨4, 4, 4, 8, 2, 2, 0, 0, 0, 0, 0, 0, 0⟩,     -- PTC24
  ⟨4, 4, 4, 8, 1, 1, 0, 0, 0, 0, 0, 0, 0⟩,     -- ATC
  ⟨8, 4, 4, 16, 1, 1, 0, 0, 0, 0, 0, 0, 0⟩,    -- ATCE
  ⟨8, 4, 4, 16, 1, 1, 0, 0, 0, 0, 0, 0, 0⟩,    -- ATCI
  ⟨8, 4, 4, 16, 1, 1, 0, 0, 0, 0, 0, 0, 0⟩,    -- ASTC4x4
  ⟨6, 5, 5, 16, 1, 1, 0, 0, 0, 0, 0, 0, 0⟩,    -- ASTC5x5
  ⟨4, 6, 6, 16, 1, 1, 0, 0, 0, 0, 0, 0, 0⟩,    -- ASTC6x6
  ⟨4, 8, 5, 16, 1, 1, 0, 0, 0, 0, 0, 0, 0⟩,    -- ASTC8x5
  ⟨3, 8, 6, 16, 1, 1, 0, 0, 0, 0, 0, 0, 0⟩,    -- ASTC8x6
  ⟨3, 10, 5, 16, 1, 1, 0, 0, 0, 0, 0, 0, 0⟩,   -- ASTC10x5
  ⟨0, 0, 0, 0, 0, 0, 0, 0, 0, 0, 0, 0, 5⟩,     -- Unknown (sentinel)
  ⟨8, 1, 1, 1, 1, 1, 0, 0, 0, 0, 0, 8, 0⟩,     -- A8
  ⟨8, 1, 1, 1, 1, 1, 0, 0, 8, 0, 0, 0, 0⟩,     -- R8
  ⟨32, 1, 1, 4, 1, 1, 0, 0, 8, 8, 8, 8, 0⟩,    -- RGBA8
  ⟨32, 1, 1, 4, 1, 1, 0, 0, 8, 8, 8, 8, 1⟩,    -- RGBA8S
  ⟨32, 1, 1, 4, 1, 1, 0, 0, 16, 16, 0, 0, 0⟩,  -- RG16
  ⟨24, 1, 1, 3, 1, 1, 0, 0, 8, 8, 8, 0, 0⟩,    -- RGB8
  ⟨16, 1, 1, 2, 1, 1, 0, 0, 16, 0, 0, 0, 0⟩,   -- R16
  ⟨32, 1, 1, 4, 1, 1, 0, 0, 32, 0, 0, 0, 2⟩,   -- R32F
  ⟨16, 1, 1, 2, 1, 1, 0, 0, 16, 0, 0, 0, 2⟩,   -- R16F
  ⟨32, 1, 1, 4, 1, 1, 0, 0, 16, 16, 0, 0, 2⟩,  -- RG16F
  ⟨32, 1, 1, 4, 1, 1, 0, 0, 16, 16, 0, 0, 1⟩,  -- RG16S
  ⟨64, 1, 1, 8, 1, 1, 0, 0, 16, 16, 16, 16, 2⟩, -- RGBA16F
  ⟨64, 1, 1, 8, 1, 1, 0, 0, 16, 16, 16, 16, 0⟩, -- RGBA16
  ⟨32, 1, 1, 4, 1, 1, 0, 0, 8, 8, 8, 8, 0⟩,    -- BGRA8
  ⟨32, 1, 1, 4, 1, 1, 0, 0, 10, 10, 10, 2, 0⟩, -- RGB10A2
  ⟨32, 1, 1, 4, 1, 1, 0, 0, 11, 11, 10, 0, 0⟩, -- RG11B10F
  ⟨16, 1, 1, 2, 1, 1, 0, 0, 8, 8, 0, 0, 0⟩,    -- RG8
  ⟨16, 1, 1, 2, 1, 1, 0, 0, 8, 8, 0, 0, 1⟩]    -- RG8S

/-- `stc__dds_header` (the fields the parser reads; the 11 reserved DWORDs
and `reserved2` are never consulted).  Offsets within the 124-byte header:
size 0, flags 4, height 8, width 12, pitch 16, depth 20, mip_count 24,
pixel_format at 72 (size, flags, fourcc, rgb_bit_count, bit_mask[4]),
caps1..caps4 at 104..116. -/
structure stc__dds_header where
  size : Nat
  flags : Nat
  height : Nat
  width : Nat
  pitch_lin_size : Nat
  depth : Nat
  mip_count : Nat
  pf_size : Nat
  pf_flags : Nat
  pf_fourcc : Nat
  pf_bit_count : Nat
  pf_bit_mask0 : Nat
  pf_bit_mask1 : Nat
  pf_bit_mask2 : Nat
  pf_bit_mask3 : Nat
  caps1 : Nat
  caps2 : Nat
  caps3 : Nat
  caps4 : Nat
deriving DecidableEq, Repr

/-- Decode a copied 124-byte DDS header (little-endian fields, as a
`memcpy` into the packed struct on a little-endian host). -/
def decode_dds_header (b : List Nat) : stc__dds_header :=
  ⟨le32At b 0, le32At b 4, le32At b 8, le32At b 12, le32At b 16, le32At b 20,
   le32At b 24, le32At b 72, le32At b 76, le32At b 80, le32At b 84, le32At b 88,
   le32At b 92, le32At b 96, le32At b 100, le32At b 104, le32At b 108,
   le32At b 112, le32At b 116⟩

/-- `stc__dds_header_dxgi`. -/
structure stc__dds_header_dxgi where
  dxgi_format : Nat
  dimension : Nat
  misc_flags : Nat
  array_size : Nat
  misc_flags2 : Nat
deriving DecidableEq, Repr

/-- Decode the 20-byte DX10 extension header. -/
def decode_dds_header_dxgi (b : List Nat) : stc__dds_header_dxgi :=
  ⟨le32At b 0, le32At b 4, le32At b 8, le32At b 12, le32At b 16⟩

/-- `stc__ktx_header` (60 bytes read from file offset 4: the first four
identifier bytes double as the dispatch magic). -/
structure stc__ktx_header where
  id0 : Nat
  id1 : Nat
  id2 : Nat
  id3 : Nat
  id4 : Nat
  id5 : Nat
  id6 : Nat
  id7 : Nat
  endianess : Nat
  type : Nat
  type_size : Nat
  format : Nat
  internal_format : Nat
  base_internal_format : Nat
  width : Nat
  height : Nat
  depth : Nat
  array_count : Nat
  face_count : Nat
  mip_count : Nat
  metadata_size : Nat
deriving DecidableEq, Repr

/-- Decode a copied 60-byte KTX header. -/
def decode_ktx_header (b : List Nat) : stc__ktx_header :=
  ⟨b.getD 0 0, b.getD 1 0, b.getD 2 0, b.getD 3 0, b.getD 4 0, b.getD 5 0,
   b.getD 6 0, b.getD 7 0, le32At b 8, le32At b 12, le32At b 16, le32At b 20,
   le32At b 24, le32At b 28, le32At b 32, le32At b 36, le32At b 40,
   le32At b 44, le32At b 48, le32At b 52, le32At b 56⟩

instance : Inhabited stc__format_info := ⟨⟨"", false⟩⟩

/-- KTX internal-format resolution: a linear scan of `k__translate_ktx_fmt`
(the canonical format is the matching row's index), then the fallback table
`k__translate_ktx_fmt2`; `_STC_FORMAT_COUNT` if unresolved. -/
def stc__resolve_ktx_format (internal_format : Nat) : Nat :=
  match k__translate_ktx_fmt.findIdx? (fun e => e.internal_fmt == internal_format) with
  | some i => i
  | none =>
    match k__translate_ktx_fmt2.find? (fun e => e.internal_fmt == internal_format) with
    | some e => e.format
    | none => STC_FORMAT_COUNT

/-- DDS format resolution (returns canonical format and sRGB flag):
DXGI table when a DX10 header supplied a non-zero format, otherwise the
FourCC table when the pixel-format FOURCC flag is set, otherwise the
bit-mask table. -/
def stc__resolve_dds_format (dxgi_format : Nat) (hdr : stc__dds_header) : Nat × Bool :=
  if dxgi_format = 0 then
    if hdr.pf_flags &&& 4 = 4 then
      match k__translate_dds_fourcc.find? (fun e => e.dds_format == hdr.pf_fourcc) with
      | some e => (e.format, false)
      | none => (STC_FORMAT_COUNT, false)
    else
      match k__translate_dds_pixel.find? (fun f =>
          f.bit_count == hdr.pf_bit_count && f.flags == hdr.pf_flags &&
          f.bit_mask0 == hdr.pf_bit_mask0 && f.bit_mask1 == hdr.pf_bit_mask1 &&
          f.bit_mask2 == hdr.pf_bit_mask2 && f.bit_mask3 == hdr.pf_bit_mask3) with
      | some f => (f.format, false)
      | none => (STC_FORMAT_COUNT, false)
  else
    match k__translate_dxgi.find? (fun e => e.dds_format == dxgi_format) with
    | some e => (e.format, e.srgb)
    | none => (STC_FORMAT_COUNT, false)

/-- The 124-byte DDS header read (the reader starts at offset 4, after the
magic word). -/
def dds_header_read (buf : List Nat) : List Nat × Int × stc__mem_reader :=
  stc__read buf ⟨(buf.length : Int), 4⟩ 124

/-- The decoded DDS header of a buffer. -/
def dds_hdr (buf : List Nat) : stc__dds_header :=
  decode_dds_header (dds_header_read buf).1

/-- The 20-byte DX10 extension read (performed right after the header
read when the DX10 condition holds). -/
def dds_dx_read (buf : List Nat) : List Nat × Int × stc__mem_reader :=
  stc__read buf (dds_header_read buf).2.2 20

/-- The decoded DX10 extension header: the copied bytes overlaid on the
uninitialized stack bytes `junk` that a short read leaves in place. -/
def dds_dxgi (buf junk : List Nat) : stc__dds_header_dxgi :=
  decode_dds_header_dxgi ((dds_dx_read buf).1 ++ (junk.take 20).drop (dds_dx_read buf).2.1.toNat)

/-- The source's DX10-extension condition: it tests `header.flags` (the
main header's flag word, whose bit 2 is the required WIDTH flag), not
`header.pixel_format.flags`, together with the FourCC field. -/
def dds_dx10_present (buf : List Nat) : Prop :=
  (dds_hdr buf).flags &&& 4 = 4 ∧ (dds_hdr buf).pf_fourcc = STC__DDS_DX10

instance (buf : List Nat) : Decidable (dds_dx10_present buf) := by
  unfold dds_dx10_present
  infer_instance

/-- `dxgi_format` after the optional DX10 read (0 when no DX10 header). -/
def dds_dxgi_format (buf junk : List Nat) : Nat :=
  if dds_dx10_present buf then (dds_dxgi buf junk).dxgi_format else 0

/-- `array_size` after the optional DX10 read (1 when no DX10 header). -/
def dds_array_size (buf junk : List Nat) : Nat :=
  if dds_dx10_present buf then (dds_dxgi buf junk).array_size else 1

/-- The reader offset when the header (and optional DX10 extension) have
been consumed: this becomes `tc->data_offset`. -/
def dds_data_offset (buf : List Nat) : Int :=
  if dds_dx10_present buf then (dds_dx_read buf).2.2.offset
  else (dds_header_read buf).2.2.offset

/-- The resolved (canonical format, sRGB) pair of a DDS buffer. -/
def dds_resolved (buf junk : List Nat) : Nat × Bool :=
  stc__resolve_dds_format (dds_dxgi_format buf junk) (dds_hdr buf)

/-- The descriptor flag word built by the DDS success path:
ALPHA from the pixel-format ALPHA bit, CUBEMAP from caps2, SRGB from the
DXGI translation row, and the DDS source flag. -/
def dds_flags_val (buf junk : List Nat) : Nat :=
  let f1 : Nat := if (dds_hdr buf).pf_flags &&& 2 ≠ 0 then 0 ||| 4 else 0
  let f2 : Nat := if (dds_hdr buf).caps2 &&& 0x200 ≠ 0 then f1 ||| 1 else f1
  let f3 : Nat := if (dds_resolved buf junk).2 then f2 ||| 2 else f2
  f3 ||| 8

/-- The descriptor written by the DDS success path (the container is
`stc_memset` to zero first, so `metadata_offset = metadata_size = 0`). -/
def dds_success_tc (buf junk : List Nat) : stc_texture_container :=
  ⟨dds_data_offset buf, (buf.length : Int) - dds_data_offset buf,
   (dds_resolved buf junk).1, dds_flags_val buf junk,
   toInt32 (dds_hdr buf).width, toInt32 (dds_hdr buf).height,
   stc__max 1 (toInt32 (dds_hdr buf).depth),
   stc__max 1 (toInt32 (dds_array_size buf junk)),
   (if (dds_hdr buf).caps1 &&& 0x400000 ≠ 0 then toInt32 (dds_hdr buf).mip_count else 1),
   (k__block_info.getD (dds_resolved buf junk).1 default).bpp, 0, 0⟩

/-- `stc__parse_dds`.  The result is (return value, error message written to
`err`, final contents of `*tc`); `tc0` is the caller's container, which the
source only writes after all validation has passed (the `stc_memset` and the
field stores sit below the last early `return false`).  `junk` supplies the
bytes of the uninitialized stack `dxgi_header` that a short 20-byte read
leaves in place.  Note the DX10 detection (`dds_dx10_present`) tests
`header.flags`, not `header.pixel_format.flags`, exactly as the source. -/
def stc__parse_dds (tc0 : stc_texture_container) (buf junk : List Nat) :
    Bool × Option String × stc_texture_container :=
  if (dds_header_read buf).2.1 < 124 ∨ (dds_hdr buf).size ≠ 124 then
    (false, some "dds: header size does not match", tc0)
  else if (dds_hdr buf).flags &&& 0x1007 ≠ 0x1007 then
    (false, some "dds: have invalid flags", tc0)
  else if (dds_hdr buf).pf_size ≠ 32 then
    (false, some "dds: pixel format header is invalid", tc0)
  else if (dds_hdr buf).caps1 &&& 0x1000 = 0 then
    (false, some "dds: unsupported caps", tc0)
  else if ((dds_hdr buf).caps2 &&& 0x200 ≠ 0) ∧ (dds_hdr buf).caps2 &&& 0xFC00 ≠ 0xFC00 then
    (false, some "dds: incomplete cubemap", tc0)
  else if (dds_resolved buf junk).1 = STC_FORMAT_COUNT then
    (false, some "dds: unknown format", tc0)
  else
    (true, none, dds_success_tc buf junk)

/-- The 60-byte KTX header read (the reader starts at offset 4: the first
four identifier bytes were consumed as the dispatch magic). -/
def ktx_header_read (buf : List Nat) : List Nat × Int × stc__mem_reader :=
  stc__read buf ⟨(buf.length : Int), 4⟩ 60

/-- The decoded KTX header of a buffer. -/
def ktx_hdr (buf : List Nat) : stc__ktx_header :=
  decode_ktx_header (ktx_header_read buf).1

/-- The partially populated container that `stc__parse_ktx` holds after
zeroing and storing the metadata location (before format validation). -/
def ktx_meta_tc (buf : List Nat) : stc_texture_container :=
  { zeroContainer with
    metadata_offset := (ktx_header_read buf).2.2.offset,
    metadata_size := toInt32 (ktx_hdr buf).metadata_size }

/-- The KTX pixel-data offset: header end plus the skipped metadata block. -/
def ktx_data_offset (buf : List Nat) : Int :=
  (ktx_header_read buf).2.2.offset + toInt32 (ktx_hdr buf).metadata_size

/-- The resolved canonical format of a KTX buffer. -/
def ktx_format (buf : List Nat) : Nat :=
  stc__resolve_ktx_format (ktx_hdr buf).internal_format

/-- The descriptor that `stc__parse_ktx` completes on its success path. -/
def ktx_success_tc (buf : List Nat) : stc_texture_container :=
  { ktx_meta_tc buf with
    data_offset := ktx_data_offset buf,
    size_bytes := (buf.length : Int) - ktx_data_offset buf,
    format := ktx_format buf,
    flags := ((if 1 < (ktx_hdr buf).face_count then 0 ||| 1 else 0) |||
      (if (k__formats_info.getD (ktx_format buf) default).has_alpha then 4 else 0)) ||| 16,
    width := toInt32 (ktx_hdr buf).width,
    height := toInt32 (ktx_hdr buf).height,
    depth := stc__max (toInt32 (ktx_hdr buf).depth) 1,
    num_layers := stc__max (toInt32 (ktx_hdr buf).array_count) 1,
    num_mips := stc__max (toInt32 (ktx_hdr buf).mip_count) 1,
    bpp := (k__block_info.getD (ktx_format buf) default).bpp }

/-- `stc__parse_ktx`.  The source `stc_memset`s `*tc` to zero at entry and
stores `metadata_offset` / `metadata_size` before the format and cubemap
validation, so error results after those points carry the partially
populated container.  The final statement of the source is `return false`,
so even a fully parsed KTX file reports failure (with no error message
written) while `*tc` holds the complete descriptor. -/
def stc__parse_ktx (tc0 : stc_texture_container) (buf : List Nat) :
    Bool × Option String × stc_texture_container :=
  let _ := tc0
  if (ktx_header_read buf).2.1 ≠ 60 then
    (false, some "ktx; header size does not match", zeroContainer)
  else if (ktx_hdr buf).id1 ≠ 49 ∧ (ktx_hdr buf).id2 ≠ 49 then
    (false, some "ktx: invalid file header", zeroContainer)
  else if (ktx_hdr buf).endianess = 0x04030201 then
    (false, some "ktx: little-endian format is not supported", zeroContainer)
  else if ktx_format buf = STC_FORMAT_COUNT then
    (false, some "ktx: unsupported format", ktx_meta_tc buf)
  else if 1 < (ktx_hdr buf).face_count ∧ (ktx_hdr buf).face_count ≠ 6 then
    (false, some "ktx: incomplete cubemap", ktx_meta_tc buf)
  else
    (false, none, ktx_success_tc buf)

/-- The 4-byte magic read at the start of `stc_parse`. -/
def stc_magic_read (buf : List Nat) : List Nat × Int × stc__mem_reader :=
  stc__read buf ⟨(buf.length : Int), 0⟩ 4

/-- `stc_parse`: reads the 4-byte magic and dispatches.  The switch has a
case only for the DDS magic; everything else (the KTX magic included)
falls through to the "unknown texture format" error. -/
def stc_parse (tc0 : stc_texture_container) (buf junk : List Nat) :
    Bool × Option String × stc_texture_container :=
  if (stc_magic_read buf).2.1 ≠ 4 then
    (false, some "invalid texture file", tc0)
  else if le32At (stc_magic_read buf).1 0 = STC__DDS_MAGIC then
    stc__parse_dds tc0 buf junk
  else
    (false, some "unknown texture format", tc0)

/-- `stc_format_str`. -/
def stc_format_str (format : Nat) : String :=
  (k__formats_info.getD format default).name

/-- `stc_format_compressed`. -/
def stc_format_compressed (format : Nat) : Bool :=
  format < STC_FORMAT_COMPRESSED_SENTINEL

/-- Little-endian serialization of a 32-bit value (test-vector helper). -/
def u32le (n : Nat) : List Nat :=
  [n % 256, n / 256 % 256, n / 65536 % 256, n / 16777216 % 256]

/-- A well-formed 136-byte DDS file: BC1, 4x4, no mip chain beyond the base
level, followed by its 8-byte BC1 payload. -/
def ddsBC1 : List Nat :=
  u32le STC__DDS_MAGIC ++ u32le 124 ++ u32le 0x1007 ++ u32le 4 ++ u32le 4 ++
  u32le 0 ++ u32le 0 ++ u32le 0 ++ List.replicate 44 0 ++
  u32le 32 ++ u32le 4 ++ u32le (stc__makefourcc 68 88 84 49) ++ u32le 0 ++
  u32le 0 ++ u32le 0 ++ u32le 0 ++ u32le 0 ++
  u32le 0x1000 ++ u32le 0 ++ u32le 0 ++ u32le 0 ++ u32le 0 ++
  List.replicate 8 0xAA

/-- A 128-byte DDS file with width = 0, height = 0, the MIPMAP caps bit set
and a zero mip-count field; all its header validation passes. -/
def ddsZeroWH : List Nat :=
  u32le STC__DDS_MAGIC ++ u32le 124 ++ u32le 0x1007 ++ u32le 0 ++ u32le 0 ++
  u32le 0 ++ u32le 0 ++ u32le 0 ++ List.replicate 44 0 ++
  u32le 32 ++ u32le 4 ++ u32le (stc__makefourcc 68 88 84 49) ++ u32le 0 ++
  u32le 0 ++ u32le 0 ++ u32le 0 ++ u32le 0 ++
  u32le 0x401000 ++ u32le 0 ++ u32le 0 ++ u32le 0 ++ u32le 0

/-- `ddsBC1` truncated right after the header: parses successfully with an
empty pixel payload (`size_bytes = 0`). -/
def ddsTrunc : List Nat := ddsBC1.take 128

/-- A 148-byte DDS file whose pixel-format flags are plain RGB (no FOURCC
bit) while the FourCC field spells "DX10"; the 20 bytes after the header
are zero, and the pixel-format bit masks describe RGB8. -/
def ddsRgbDx10 : List Nat :=
  u32le STC__DDS_MAGIC ++ u32le 124 ++ u32le 0x1007 ++ u32le 4 ++ u32le 4 ++
  u32le 0 ++ u32le 0 ++ u32le 0 ++ List.replicate 44 0 ++
  u32le 32 ++ u32le 0x40 ++ u32le STC__DDS_DX10 ++ u32le 24 ++
  u32le 0xff0000 ++ u32le 0xff00 ++ u32le 0xff ++ u32le 0 ++
  u32le 0x1000 ++ u32le 0 ++ u32le 0 ++ u32le 0 ++ u32le 0 ++
  List.replicate 20 0

/-- A 164-byte DDS file with a genuine DX10 extension: DXGI format 98
(BC7_UNORM), 4x4, array size 1, 16-byte BC7 payload. -/
def ddsDx10Bc7 : List Nat :=
  u32le STC__DDS_MAGIC ++ u32le 124 ++ u32le 0x1007 ++ u32le 4 ++ u32le 4 ++
  u32le 0 ++ u32le 0 ++ u32le 0 ++ List.replicate 44 0 ++
  u32le 32 ++ u32le 4 ++ u32le STC__DDS_DX10 ++ u32le 0 ++
  u32le 0 ++ u32le 0 ++ u32le 0 ++ u32le 0 ++
  u32le 0x1000 ++ u32le 0 ++ u32le 0 ++ u32le 0 ++ u32le 0 ++
  u32le 98 ++ u32le 3 ++ u32le 0 ++ u32le 1 ++ u32le 0 ++
  List.replicate 16 0xBB

/-- A 68-byte well-formed big-endian KTX v1 file (as read on a
little-endian host): ETC1 internal format, 32x32, one face, one mip,
no metadata, followed by a 4-byte image-size word. -/
def ktxEtc1 : List Nat :=
  [0xAB, 0x4B, 0x54, 0x58, 0x20, 0x31, 0x31, 0xBB, 0x0D, 0x0A, 0x1A, 0x0A] ++
  u32le 0x01020304 ++ u32le 0 ++ u32le 0 ++ u32le 0 ++ u32le 0x8D64 ++
  u32le 0 ++ u32le 32 ++ u32le 32 ++ u32le 0 ++ u32le 0 ++ u32le 1 ++
  u32le 1 ++ u32le 0 ++ u32le 512

/-- `ktxEtc1` with a face-count field of 0. -/
def ktxFace0 : List Nat :=
  [0xAB, 0x4B, 0x54, 0x58, 0x20, 0x31, 0x31, 0xBB, 0x0D, 0x0A, 0x1A, 0x0A] ++
  u32le 0x01020304 ++ u32le 0 ++ u32le 0 ++ u32le 0 ++ u32le 0x8D64 ++
  u32le 0 ++ u32le 32 ++ u32le 32 ++ u32le 0 ++ u32le 0 ++ u32le 0 ++
  u32le 1 ++ u32le 0 ++ u32le 512

/-- `ktxEtc1` with a face-count field of 3 (a partial cubemap). -/
def ktxFace3 : List Nat :=
  [0xAB, 0x4B, 0x54, 0x58, 0x20, 0x31, 0x31, 0xBB, 0x0D, 0x0A, 0x1A, 0x0A] ++
  u32le 0x01020304 ++ u32le 0 ++ u32le 0 ++ u32le 0 ++ u32le 0x8D64 ++
  u32le 0 ++ u32le 32 ++ u32le 32 ++ u32le 0 ++ u32le 0 ++ u32le 3 ++
  u32le 1 ++ u32le 0 ++ u32le 512

/-- Per-mip dimension adjustment in `stc_get_sub`: round up to a multiple
of the block dimension, then clamp to the minimum-blocks floor. -/
def dds_adjust (blockDim minBlocks : Int) (x : Int) : Int :=
  stc__max (minBlocks * blockDim) (Int.tdiv (x + blockDim - 1) blockDim * blockDim)

/-- `mip_size = width/block_width * height/block_height * block_size`
(C left-associated integer arithmetic on the adjusted dimensions). -/
def stc__mip_size (bi : stc__block_info) (w2 h2 : Int) : Int :=
  Int.tdiv (Int.tdiv w2 bi.block_width * h2) bi.block_height * bi.block_size

/-- `row_pitch_bytes = width*bpp/8`. -/
def stc__row_pitch (bi : stc__block_info) (w2 : Int) : Int :=
  Int.tdiv (w2 * bi.bpp) 8

/-- Innermost slice loop of `stc_get_sub` (shared by the DDS and the KTX
walk): on the matching position the sub-image view is produced at the
current offset, otherwise the offset advances by `mipSize`.  Returns the
loop's result and the offset it stopped at. -/
def stc__sub_slice_loop (hitRest : Bool) (sliceIdx : Int) (w h mipSize rowPitch : Int) :
    Nat → Nat → Int → Option stc_sub_data × Int
  | 0, _, off => (none, off)
  | fuel+1, slice, off =>
    if hitRest && ((slice : Int) == sliceIdx) then
      (some ⟨off, w, h, mipSize, rowPitch⟩, off)
    else
      stc__sub_slice_loop hitRest sliceIdx w h mipSize rowPitch fuel (slice+1) (off + mipSize)

/-- Loop-nest composition step: if the inner loop produced the sub-image,
return it (the C `return`); otherwise continue from the offset the inner
loop stopped at. -/
def stc__walk_step (p : Option stc_sub_data × Int) (k : Int → Option stc_sub_data × Int) :
    Option stc_sub_data × Int :=
  match p with
  | (some v, off2) => (some v, off2)
  | (none, off2) => k off2

/-- DDS mip loop: adjust dimensions, run the slice loop, halve for the
next level. -/
def stc__dds_mip_loop (bi : stc__block_info) (faceHit : Bool) (mipIdx sliceIdx : Int)
    (numSlices : Nat) : Nat → Nat → Int → Int → Int → Option stc_sub_data × Int
  | 0, _, _, _, off => (none, off)
  | fuel+1, mip, w, h, off =>
    let w2 := dds_adjust bi.block_width bi.min_block_x w
    let h2 := dds_adjust bi.block_height bi.min_block_y h
    stc__walk_step
      (stc__sub_slice_loop (faceHit && ((mip : Int) == mipIdx)) sliceIdx w2 h2
        (stc__mip_size bi w2 h2) (stc__row_pitch bi w2) numSlices 0 off)
      (stc__dds_mip_loop bi faceHit mipIdx sliceIdx numSlices fuel (mip+1) (sar1 w2) (sar1 h2))

/-- DDS face loop: dimensions restart from the descriptor's width/height
for every face. -/
def stc__dds_face_loop (bi : stc__block_info) (layerHit : Bool) (faceIdx mipIdx sliceIdx : Int)
    (numSlices mips : Nat) (w0 h0 : Int) : Nat → Nat → Int → Option stc_sub_data × Int
  | 0, _, off => (none, off)
  | fuel+1, face, off =>
    stc__walk_step
      (stc__dds_mip_loop bi (layerHit && (faceIdx == (face : Int))) mipIdx sliceIdx
        numSlices mips 0 w0 h0 off)
      (stc__dds_face_loop bi layerHit faceIdx mipIdx sliceIdx numSlices mips w0 h0 fuel (face+1))

/-- DDS layer loop (outermost). -/
def stc__dds_layer_loop (bi : stc__block_info) (arrayIdx faceIdx mipIdx sliceIdx : Int)
    (numFaces numSlices mips : Nat) (w0 h0 : Int) : Nat → Nat → Int → Option stc_sub_data × Int
  | 0, _, off => (none, off)
  | fuel+1, layer, off =>
    stc__walk_step
      (stc__dds_face_loop bi (((layer : Int)) == arrayIdx) faceIdx mipIdx sliceIdx
        numSlices mips w0 h0 numFaces 0 off)
      (stc__dds_layer_loop bi arrayIdx faceIdx mipIdx sliceIdx numFaces numSlices mips w0 h0 fuel (layer+1))

/-- KTX face loop: after each face's slices the offset is aligned up to a
4-byte boundary ("cube padding"). -/
def stc__ktx_face_loop (layerHit : Bool) (faceIdx sliceIdx : Int) (w2 h2 ms rp : Int)
    (numSlices : Nat) : Nat → Nat → Int → Option stc_sub_data × Int
  | 0, _, off => (none, off)
  | fuel+1, face, off =>
    stc__walk_step
      (stc__sub_slice_loop (layerHit && (faceIdx == (face : Int))) sliceIdx w2 h2 ms rp
        numSlices 0 off)
      (fun off2 =>
        stc__ktx_face_loop layerHit faceIdx sliceIdx w2 h2 ms rp numSlices fuel (face+1)
          (stc__align4 off2))

/-- KTX layer loop. -/
def stc__ktx_layer_loop (mipHit : Bool) (arrayIdx faceIdx sliceIdx : Int) (w2 h2 ms rp : Int)
    (numFaces numSlices : Nat) : Nat → Nat → Int → Option stc_sub_data × Int
  | 0, _, off => (none, off)
  | fuel+1, layer, off =>
    stc__walk_step
      (stc__ktx_face_loop (mipHit && ((layer : Int) == arrayIdx)) faceIdx sliceIdx w2 h2 ms rp
        numSlices numFaces 0 off)
      (stc__ktx_layer_loop mipHit arrayIdx faceIdx sliceIdx w2 h2 ms rp numFaces numSlices fuel (layer+1))

/-- KTX mip loop (outermost): reads the per-mip 4-byte image-size word
through the byte reader (only the offset advance is observable — the value
feeds an assertion), then walks layers/faces/slices, then aligns up to a
4-byte boundary ("mip padding"). -/
def stc__ktx_mip_loop (bi : stc__block_info) (buf : List Nat) (total : Int)
    (arrayIdx faceIdx mipIdx sliceIdx : Int) (numLayers numFaces numSlices : Nat) :
    Nat → Nat → Int → Int → Int → Option stc_sub_data × Int
  | 0, _, _, _, off => (none, off)
  | fuel+1, mip, w, h, off =>
    let w2 := dds_adjust bi.block_width bi.min_block_x w
    let h2 := dds_adjust bi.block_height bi.min_block_y h
    stc__walk_step
      (stc__ktx_layer_loop ((mip : Int) == mipIdx) arrayIdx faceIdx sliceIdx w2 h2
        (stc__mip_size bi w2 h2) (stc__row_pitch bi w2) numFaces numSlices numLayers 0
        ((stc__read buf ⟨total, off⟩ 4).2.2.offset))
      (fun off2 =>
        stc__ktx_mip_loop bi buf total arrayIdx faceIdx mipIdx sliceIdx numLayers numFaces
          numSlices fuel (mip+1) (sar1 w2) (sar1 h2) (stc__align4 off2))

/-- `stc_get_sub`: walks the payload layout of the parsed container and
returns the requested sub-image view; `sub0` is the caller's `stc_sub_data`
before the call, returned untouched when the walk writes nothing (no
matching position, or a container with neither source flag). -/
def stc_get_sub (tc : stc_texture_container) (sub0 : stc_sub_data) (buf : List Nat)
    (size : Int) (array_idx slice_face_idx mip_idx : Int) : stc_sub_data :=
  let bi := k__block_info.getD tc.format default
  let sliceIdx : Int := if tc.flags &&& 1 ≠ 0 then 0 else slice_face_idx
  let faceIdx : Int := if tc.flags &&& 1 ≠ 0 then slice_face_idx else 0
  let numFaces : Nat := if tc.flags &&& 1 ≠ 0 then 6 else 1
  let numSlices : Nat := if tc.flags &&& 1 ≠ 0 then 1 else tc.depth.toNat
  if tc.flags &&& 8 ≠ 0 then
    (stc__dds_layer_loop bi array_idx faceIdx mip_idx sliceIdx numFaces numSlices
      tc.num_mips.toNat tc.width tc.height tc.num_layers.toNat 0 tc.data_offset).1.getD sub0
  else if tc.flags &&& 16 ≠ 0 then
    (stc__ktx_mip_loop bi buf size array_idx faceIdx mip_idx sliceIdx tc.num_layers.toNat
      numFaces numSlices tc.num_mips.toNat 0 tc.width tc.height tc.data_offset).1.getD sub0
  else
    sub0

/-- The request indices that the `stc_get_sub` walk can actually visit:
exactly the in-range triples of the API contract. -/
def stc__sub_in_range (tc : stc_texture_container) (array_idx slice_face_idx mip_idx : Int) : Prop :=
  0 ≤ array_idx ∧ array_idx < tc.num_layers ∧
  0 ≤ mip_idx ∧ mip_idx < tc.num_mips ∧
  0 ≤ slice_face_idx ∧
  slice_face_idx < (if tc.flags &&& 1 ≠ 0 then 6 else tc.depth)

instance (tc : stc_texture_container) (a s m : Int) : Decidable (stc__sub_in_range tc a s m) := by
  unfold stc__sub_in_range
  infer_instance

/-- Total byte size of one face's mip chain in the DDS walk. -/
def stc__dds_chain_total (bi : stc__block_info) (numSlices : Nat) : Nat → Int → Int → Int
  | 0, _, _ => 0
  | fuel+1, w, h =>
    let w2 := dds_adjust bi.block_width bi.min_block_x w
    let h2 := dds_adjust bi.block_height bi.min_block_y h
    (numSlices : Int) * stc__mip_size bi w2 h2 +
      stc__dds_chain_total bi numSlices fuel (sar1 w2) (sar1 h2)

/-- Total byte size of the full DDS walk of a descriptor (all layers, all
faces, all mips, all slices). -/
def stc__dds_walk_total (tc : stc_texture_container) : Int :=
  let bi := k__block_info.getD tc.format default
  let numFaces : Nat := if tc.flags &&& 1 ≠ 0 then 6 else 1
  let numSlices : Nat := if tc.flags &&& 1 ≠ 0 then 1 else tc.depth.toNat
  (tc.num_layers.toNat : Int) *
    ((numFaces : Int) * stc__dds_chain_total bi numSlices tc.num_mips.toNat tc.width tc.height)

/-- C2 counterexample: the block-info row of ASTC5x5 (ordinal 21) violates
`block_size * 8 = bpp * block_width * block_height`
(16 * 8 = 128 but 6 * 5 * 5 = 150). -/
theorem claim2_counterexample :
    ¬ ((k__block_info.getD STC_FORMAT_ASTC5x5 default).block_size * 8 =
       (k__block_info.getD STC_FORMAT_ASTC5x5 default).bpp *
       (k__block_info.getD STC_FORMAT_ASTC5x5 default).block_width *
       (k__block_info.getD STC_FORMAT_ASTC5x5 default).block_height) := by
  decide

/-- C2 (amended): the block-info invariant
`block_size * 8 = bpp * block_width * block_height` holds for every
canonical format except the five ASTC formats with a fractional true
bits-per-pixel (ASTC5x5, ASTC6x6, ASTC8x5, ASTC8x6, ASTC10x5,
ordinals 21..25). -/
theorem claim2_amended (f : Fin 45) (hs : f.val ≠ STC_FORMAT_COMPRESSED_SENTINEL)
    (ha : ¬ (21 ≤ f.val ∧ f.val ≤ 25)) :
    (k__block_info.getD f.val default).block_size * 8 =
      (k__block_info.getD f.val default).bpp *
      (k__block_info.getD f.val default).block_width *
      (k__block_info.getD f.val default).block_height := by
  revert f
  decide

/-- Witness for C2 (amended) at BC1. -/
theorem claim2_amended_witness :
    (k__block_info.getD STC_FORMAT_BC1 default).block_size * 8 =
      (k__block_info.getD STC_FORMAT_BC1 default).bpp *
      (k__block_info.getD STC_FORMAT_BC1 default).block_width *
      (k__block_info.getD STC_FORMAT_BC1 default).block_height :=
  claim2_amended ⟨0, by decide⟩ (by decide) (by decide)

/-- C8: `stc__read` copies exactly `min n (total - offset)` bytes, advances
the offset by that count and returns it, never moving past `total`; it is a
total function (no error signalling). -/
theorem claim8_read_contract (buf : List Nat) (r : stc__mem_reader) (n : Int)
    (_h0 : 0 ≤ r.offset) (_h1 : r.offset ≤ r.total) (_h2 : 0 ≤ n) :
    (stc__read buf r n).2.1 = min n (r.total - r.offset) ∧
    (stc__read buf r n).2.2.offset = r.offset + min n (r.total - r.offset) ∧
    (stc__read buf r n).2.2.offset ≤ r.total ∧
    (stc__read buf r n).2.2.total = r.total ∧
    (stc__read buf r n).1 =
      (buf.drop r.offset.toNat).take (min n (r.total - r.offset)).toNat := by
  have hm : (if r.offset + n ≤ r.total then n else r.total - r.offset) =
      min n (r.total - r.offset) := by
    split <;> omega
  simp only [stc__read, hm]
  refine ⟨trivial, trivial, by omega, trivial, trivial⟩

/-- Witness for C8 on a concrete short read. -/
theorem claim8_read_contract_witness :
    (stc__read [10, 20, 30, 40, 50] ⟨5, 1⟩ 7).2.1 = min 7 (5 - 1) ∧
    (stc__read [10, 20, 30, 40, 50] ⟨5, 1⟩ 7).2.2.offset = 1 + min 7 (5 - 1) ∧
    (stc__read [10, 20, 30, 40, 50] ⟨5, 1⟩ 7).2.2.offset ≤ 5 ∧
    (stc__read [10, 20, 30, 40, 50] ⟨5, 1⟩ 7).2.2.total = 5 ∧
    (stc__read [10, 20, 30, 40, 50] ⟨5, 1⟩ 7).1 =
      (([10, 20, 30, 40, 50] : List Nat).drop (1 : Int).toNat).take (min 7 (5 - 1) : Int).toNat :=
  claim8_read_contract [10, 20, 30, 40, 50] ⟨5, 1⟩ 7 (by decide) (by decide) (by decide)

set_option maxRecDepth 40000 in
/-- C1 (code bug): a buffer starting with the KTX magic is rejected by
`stc_parse` with "unknown texture format" — the dispatch switch has no KTX
case — and `stc__parse_ktx` itself, run directly on a well-formed KTX file,
fully populates the descriptor (SOURCE_KTX flag, clamped counts) yet still
returns `false`, because its success path ends in `return false`. -/
theorem claim1_ktx_dispatch_code_bug :
    le32At ktxEtc1 0 = STC__KTX_MAGIC ∧
    stc_parse zeroContainer ktxEtc1 [] =
      (false, some "unknown texture format", zeroContainer) ∧
    stc__parse_ktx zeroContainer ktxEtc1 =
      (false, none, ⟨64, 4, STC_FORMAT_ETC1, STC_TEXTURE_FLAG_KTX, 32, 32, 1, 1, 1, 4, 64, 0⟩) := by
  refine ⟨by decide, by decide, by decide⟩

/-- Helper: `stc__max 1 x` is at least 1. -/
theorem one_le_stc__max_one (x : Int) : 1 ≤ stc__max 1 x := by
  unfold stc__max
  split <;> omega

/-- Helper: `stc__max x 1` is at least 1. -/
theorem one_le_stc__max_one_right (x : Int) : 1 ≤ stc__max x 1 := by
  unfold stc__max
  split <;> omega

/-- The descriptor of the parsed `ddsBC1` test file. -/
def tcBC1 : stc_texture_container := ⟨128, 8, 0, 8, 4, 4, 1, 1, 1, 4, 0, 0⟩

/-- An arbitrarily pre-filled caller container (used to observe that failed
parses leave it untouched). -/
def tcJunk : stc_texture_container := ⟨1, 2, 3, 4, 5, 6, 7, 8, 9, 10, 11, 12⟩

/-- C9: on every successful `stc_parse`, the recorded payload is exactly the
span from `data_offset` to the end of the input buffer:
`data_offset + size_bytes = size`. -/
theorem claim9_payload_span (tc0 : stc_texture_container) (buf junk : List Nat)
    (em : Option String) (tc : stc_texture_container)
    (h : stc_parse tc0 buf junk = (true, em, tc)) :
    tc.data_offset + tc.size_bytes = (buf.length : Int) := by
  simp only [stc_parse, stc__parse_dds] at h
  repeat' split at h
  all_goals
    first
      | exact Bool.noConfusion (congrArg Prod.fst h)
      | (simp only [Prod.mk.injEq] at h
         obtain ⟨-, -, htc⟩ := h
         subst htc
         simp only [dds_success_tc]
         omega)

set_option maxRecDepth 40000 in
/-- Witness for C9 on the `ddsBC1` test file (136 bytes, payload at 128). -/
theorem claim9_payload_span_witness :
    tcBC1.data_offset + tcBC1.size_bytes = (ddsBC1.length : Int) :=
  claim9_payload_span zeroContainer ddsBC1 [] none tcBC1 (by decide)

set_option maxRecDepth 40000 in
/-- C3 counterexample: `ddsZeroWH` (width = 0, height = 0, MIPMAP caps bit
set, mip-count field 0) parses successfully, yet its descriptor violates
`width ≥ 1 ∧ height ≥ 1 ∧ num_mips ≥ 1`. -/
theorem claim3_counterexample :
    (stc_parse zeroContainer ddsZeroWH []).1 = true ∧
    (dds_hdr ddsZeroWH).caps1 &&& 0x400000 ≠ 0 ∧
    ¬ (1 ≤ (stc_parse zeroContainer ddsZeroWH []).2.2.width ∧
       1 ≤ (stc_parse zeroContainer ddsZeroWH []).2.2.height ∧
       1 ≤ (stc_parse zeroContainer ddsZeroWH []).2.2.num_mips) := by
  refine ⟨by decide, by decide, by decide⟩

/-- C3 (amended): on every successful `stc_parse` the descriptor satisfies
`depth ≥ 1` and `num_layers ≥ 1` (both are clamped with `stc__max 1 _`);
`width`, `height` are copied unclamped from the header and `num_mips` is
the raw header mip count whenever the MIPMAP caps bit is set, so those
three can be 0. -/
theorem claim3_amended (tc0 : stc_texture_container) (buf junk : List Nat)
    (em : Option String) (tc : stc_texture_container)
    (h : stc_parse tc0 buf junk = (true, em, tc)) :
    1 ≤ tc.depth ∧ 1 ≤ tc.num_layers := by
  simp only [stc_parse, stc__parse_dds] at h
  repeat' split at h
  all_goals
    first
      | exact Bool.noConfusion (congrArg Prod.fst h)
      | (simp only [Prod.mk.injEq] at h
         obtain ⟨-, -, htc⟩ := h
         subst htc
         exact ⟨one_le_stc__max_one _, one_le_stc__max_one _⟩)

set_option maxRecDepth 40000 in
/-- Witness for C3 (amended) on the `ddsBC1` test file. -/
theorem claim3_amended_witness : 1 ≤ tcBC1.depth ∧ 1 ≤ tcBC1.num_layers :=
  claim3_amended zeroContainer ddsBC1 [] none tcBC1 (by decide)

/-- C5: whenever `stc_parse` returns false, the caller's container is left
exactly as it was — the DDS parser writes `*tc` only after the last
possible early return, and the KTX parser (whose error paths do write the
zeroed container and the metadata fields) is never reached from
`stc_parse`. -/
theorem claim5_error_frame (tc0 : stc_texture_container) (buf junk : List Nat)
    (em : Option String) (tc : stc_texture_container)
    (h : stc_parse tc0 buf junk = (false, em, tc)) :
    tc = tc0 := by
  simp only [stc_parse, stc__parse_dds] at h
  repeat' split at h
  all_goals
    first
      | exact Bool.noConfusion (congrArg Prod.fst h)
      | (simp only [Prod.mk.injEq] at h
         exact h.2.2.symm)

set_option maxRecDepth 40000 in
/-- Witness for C5: a 3-byte buffer fails the magic read and the prefilled
container comes back untouched. -/
theorem claim5_error_frame_witness :
    stc_parse tcJunk [0, 1, 2] [] = (false, some "invalid texture file", tcJunk) ∧
    tcJunk = tcJunk :=
  ⟨by decide,
   claim5_error_frame tcJunk [0, 1, 2] [] (some "invalid texture file") tcJunk (by decide)⟩

/-- The count and final offset of the DDS header read, in closed form. -/
theorem dds_header_count (buf : List Nat) :
    (dds_header_read buf).2.1 =
      (if 4 + 124 ≤ (buf.length : Int) then (124 : Int) else (buf.length : Int) - 4) ∧
    (dds_header_read buf).2.2.offset = 4 + (dds_header_read buf).2.1 := by
  simp only [dds_header_read, stc__read]
  constructor <;> trivial

/-- The final offset of the DX10 extension read, in closed form. -/
theorem dds_dx_read_offset (buf : List Nat) :
    (dds_dx_read buf).2.2.offset = (dds_header_read buf).2.2.offset +
      (if (dds_header_read buf).2.2.offset + 20 ≤ (buf.length : Int) then (20 : Int)
       else (buf.length : Int) - (dds_header_read buf).2.2.offset) := by
  simp only [dds_dx_read, dds_header_read, stc__read]

/-- A flag word containing all four required DDS bits contains the 0x4
(WIDTH) bit — which is the same bit value the source tests for FOURCC. -/
theorem land_four_of_land_required {f : Nat} (hf : f &&& 0x1007 = 0x1007) :
    f &&& 4 = 4 := by
  have e1 : (0x1007 &&& 4 : Nat) = 4 := by decide
  calc f &&& 4 = f &&& (0x1007 &&& 4) := by rw [e1]
    _ = f &&& 0x1007 &&& 4 := (Nat.land_assoc f 0x1007 4).symm
    _ = 0x1007 &&& 4 := by rw [hf]
    _ = 4 := e1

set_option maxRecDepth 40000 in
/-- C7 counterexample: `ddsRgbDx10` has the FOURCC bit clear in its
pixel-format flags (so, per the claim, no DX10 header is "present" and
`data_offset` should be 128), yet it parses successfully with
`data_offset = 148`: the source keys the DX10 read on `header.flags`,
whose 0x4 bit is the required WIDTH flag, and on the FourCC field alone. -/
theorem claim7_counterexample :
    (stc_parse zeroContainer ddsRgbDx10 []).1 = true ∧
    (dds_hdr ddsRgbDx10).pf_flags &&& 4 = 0 ∧
    (stc_parse zeroContainer ddsRgbDx10 []).2.2.data_offset ≠ 128 := by
  refine ⟨by decide, by decide, by decide⟩

/-- C7 (amended): on every successful `stc_parse`, the descriptor's
`data_offset` is `128 + min 20 (size - 128)` exactly when the pixel-format
FourCC field equals 'DX10' (regardless of the pixel-format FOURCC flag:
the source tests the 0x4 bit of the main header's flag word, which the
required WIDTH flag forces set), and 128 otherwise.  For buffers of at
least 148 bytes the first case is the spec's 4 + 124 + 20 = 148. -/
theorem claim7_amended (tc0 : stc_texture_container) (buf junk : List Nat)
    (em : Option String) (tc : stc_texture_container)
    (h : stc_parse tc0 buf junk = (true, em, tc)) :
    tc.data_offset =
      if (dds_hdr buf).pf_fourcc = STC__DDS_DX10
      then 128 + min 20 ((buf.length : Int) - 128)
      else 128 := by
  simp only [stc_parse, stc__parse_dds] at h
  repeat' split at h
  all_goals
    first
      | exact Bool.noConfusion (congrArg Prod.fst h)
      | (simp only [Prod.mk.injEq] at h
         obtain ⟨-, -, htc⟩ := h
         subst htc
         rename_i h1 h2 h3 h4 h5 h6
         push_neg at h1 h2
         obtain ⟨hcnt, -⟩ := h1
         have hflags4 : (dds_hdr buf).flags &&& 4 = 4 := land_four_of_land_required h2
         obtain ⟨hc1, hc2⟩ := dds_header_count buf
         have hL : 128 ≤ (buf.length : Int) ∧ (dds_header_read buf).2.2.offset = 128 := by
           by_cases hLL : (4 : Int) + 124 ≤ (buf.length : Int)
           · rw [if_pos hLL] at hc1
             exact ⟨by omega, by omega⟩
           · rw [if_neg hLL] at hc1
             omega
         simp only [dds_success_tc, dds_data_offset]
         by_cases hdx : dds_dx10_present buf
         · rw [if_pos hdx, if_pos hdx.2]
           have hdo := dds_dx_read_offset buf
           rw [hL.2] at hdo
           have hL1 := hL.1
           split at hdo <;> omega
         · rw [if_neg hdx]
           have hfc : ¬ (dds_hdr buf).pf_fourcc = STC__DDS_DX10 := fun hx => hdx ⟨hflags4, hx⟩
           rw [if_neg hfc, hL.2])

/-- The descriptor of the parsed `ddsDx10Bc7` test file. -/
def tcDx10 : stc_texture_container := ⟨148, 16, 6, 8, 4, 4, 1, 1, 1, 8, 0, 0⟩

set_option maxRecDepth 40000 in
/-- Witness for C7 (amended) on the `ddsDx10Bc7` test file (164 bytes,
FourCC 'DX10', so `data_offset = 128 + min 20 36 = 148`). -/
theorem claim7_amended_witness :
    tcDx10.data_offset =
      if (dds_hdr ddsDx10Bc7).pf_fourcc = STC__DDS_DX10
      then 128 + min 20 ((ddsDx10Bc7.length : Int) - 128)
      else 128 :=
  claim7_amended zeroContainer ddsDx10Bc7 [] none tcDx10 (by decide)

set_option maxRecDepth 40000 in
/-- C6 counterexample: `ktxFace0` carries a face-count field of 0, which the
claim says must fail with "ktx: incomplete cubemap"; the source's test
`face_count > 1 && face_count != 6` lets 0 through, and the parse runs to
completion with no error message at all. -/
theorem claim6_counterexample :
    (ktx_hdr ktxFace0).face_count = 0 ∧
    (stc__parse_ktx zeroContainer ktxFace0).2.1 ≠ some "ktx: incomplete cubemap" ∧
    (stc__parse_ktx zeroContainer ktxFace0).2.1 = none := by
  refine ⟨by decide, by decide, by decide⟩

/-- C6 (amended): once the KTX parser reaches the cubemap validation
(header fully read, identifier accepted, endianness accepted, format
resolved), it reports "ktx: incomplete cubemap" exactly when the
face-count field is greater than 1 and different from 6 — so 0, 1 and 6
all pass this validation. -/
theorem claim6_amended (tc0 : stc_texture_container) (buf : List Nat)
    (hsz : (ktx_header_read buf).2.1 = 60)
    (hid : ¬ ((ktx_hdr buf).id1 ≠ 49 ∧ (ktx_hdr buf).id2 ≠ 49))
    (hend : (ktx_hdr buf).endianess ≠ 0x04030201)
    (hfmt : ktx_format buf ≠ STC_FORMAT_COUNT) :
    ((stc__parse_ktx tc0 buf).2.1 = some "ktx: incomplete cubemap" ↔
      (1 < (ktx_hdr buf).face_count ∧ (ktx_hdr buf).face_count ≠ 6)) := by
  have hsz' : ¬ ((ktx_header_read buf).2.1 ≠ 60) := by simp [hsz]
  simp only [stc__parse_ktx]
  rw [if_neg hsz', if_neg hid, if_neg hend, if_neg hfmt]
  by_cases hcb : 1 < (ktx_hdr buf).face_count ∧ (ktx_hdr buf).face_count ≠ 6
  · rw [if_pos hcb]
    simp [hcb]
  · rw [if_neg hcb]
    simp [hcb]

set_option maxRecDepth 40000 in
/-- Witness for C6 (amended) on the `ktxFace3` test file (face count 3:
the validation fires). -/
theorem claim6_amended_witness :
    ((stc__parse_ktx zeroContainer ktxFace3).2.1 = some "ktx: incomplete cubemap" ↔
      (1 < (ktx_hdr ktxFace3).face_count ∧ (ktx_hdr ktxFace3).face_count ≠ 6)) :=
  claim6_amended zeroContainer ktxFace3 (by decide) (by decide) (by decide) (by decide)

theorem stc__walk_step_none {p : Option stc_sub_data × Int} {k : Int → Option stc_sub_data × Int}
    (hp : p.1 = none) : stc__walk_step p k = k p.2 := by
  rcases p with ⟨res, off⟩
  cases res
  · rfl
  · exact absurd hp (by simp)

theorem stc__walk_step_fst_none {p : Option stc_sub_data × Int} {k : Int → Option stc_sub_data × Int}
    (hp : p.1 = none) (hk : ∀ off, (k off).1 = none) : (stc__walk_step p k).1 = none := by
  rw [stc__walk_step_none hp]
  exact hk p.2

theorem stc__sub_slice_loop_none_of (hit : Bool) (sliceIdx w h ms rp : Int) :
    ∀ (fuel s0 : Nat) (off : Int),
      (hit = false ∨ sliceIdx < (s0 : Int) ∨ (s0 : Int) + fuel ≤ sliceIdx) →
      (stc__sub_slice_loop hit sliceIdx w h ms rp fuel s0 off).1 = none := by
  intro fuel
  induction fuel with
  | zero => intro s0 off _; simp [stc__sub_slice_loop]
  | succ n ih =>
    intro s0 off hc
    have hb : (hit && ((s0 : Int) == sliceIdx)) = false := by
      rcases hc with hf | hs | hs
      · simp [hf]
      · have : ((s0 : Nat) : Int) ≠ sliceIdx := by omega
        simp [this]
      · have : ((s0 : Nat) : Int) ≠ sliceIdx := by push_cast at hs ⊢; omega
        simp [this]
    rw [stc__sub_slice_loop, hb]
    simp only [Bool.false_eq_true, if_false]
    apply ih
    rcases hc with hf | hs | hs
    · exact Or.inl hf
    · right; left; omega
    · right; right; push_cast at hs ⊢; omega

theorem stc__dds_mip_loop_none_of (bi : stc__block_info) (faceHit : Bool)
    (mipIdx sliceIdx : Int) (numSlices : Nat) :
    ∀ (fuel m0 : Nat) (w h off : Int),
      (faceHit = false ∨ mipIdx < (m0 : Int) ∨ (m0 : Int) + fuel ≤ mipIdx ∨
       sliceIdx < 0 ∨ (numSlices : Int) ≤ sliceIdx) →
      (stc__dds_mip_loop bi faceHit mipIdx sliceIdx numSlices fuel m0 w h off).1 = none := by
  intro fuel
  induction fuel with
  | zero => intro m0 w h off _; simp [stc__dds_mip_loop]
  | succ n ih =>
    intro m0 w h off hc
    rw [stc__dds_mip_loop]
    apply stc__walk_step_fst_none
    · apply stc__sub_slice_loop_none_of
      rcases hc with hf | hm | hm | hs | hs
      · left; simp [hf]
      · left
        have : ((m0 : Nat) : Int) ≠ mipIdx := by omega
        simp [this]
      · left
        have : ((m0 : Nat) : Int) ≠ mipIdx := by push_cast at hm ⊢; omega
        simp [this]
      · right; left; omega
      · right; right; omega
    · intro off2
      apply ih
      rcases hc with hf | hm | hm | hs | hs
      · exact Or.inl hf
      · right; left; omega
      · right; right; left; push_cast at hm ⊢; omega
      · right; right; right; left; exact hs
      · right; right; right; right; exact hs

theorem stc__dds_face_loop_none_of (bi : stc__block_info) (layerHit : Bool)
    (faceIdx mipIdx sliceIdx : Int) (numSlices mips : Nat) (w0 h0 : Int) :
    ∀ (fuel f0 : Nat) (off : Int),
      (layerHit = false ∨ faceIdx < (f0 : Int) ∨ (f0 : Int) + fuel ≤ faceIdx ∨
       mipIdx < 0 ∨ (mips : Int) ≤ mipIdx ∨ sliceIdx < 0 ∨ (numSlices : Int) ≤ sliceIdx) →
      (stc__dds_face_loop bi layerHit faceIdx mipIdx sliceIdx numSlices mips w0 h0 fuel f0 off).1 = none := by
  intro fuel
  induction fuel with
  | zero => intro f0 off _; simp [stc__dds_face_loop]
  | succ n ih =>
    intro f0 off hc
    rw [stc__dds_face_loop]
    apply stc__walk_step_fst_none
    · apply stc__dds_mip_loop_none_of
      rcases hc with hf | hm | hm | hx | hx | hs | hs
      · left; simp [hf]
      · left
        have : faceIdx ≠ ((f0 : Nat) : Int) := by omega
        simp [this]
      · left
        have : faceIdx ≠ ((f0 : Nat) : Int) := by push_cast at hm ⊢; omega
        simp [this]
      · right; left; exact hx
      · right; right; left; omega
      · right; right; right; left; exact hs
      · right; right; right; right; exact hs
    · intro off2
      apply ih
      rcases hc with hf | hm | hm | hx | hx | hs | hs
      · exact Or.inl hf
      · right; left; omega
      · right; right; left; push_cast at hm ⊢; omega
      · right; right; right; left; exact hx
      · right; right; right; right; left; exact hx
      · right; right; right; right; right; left; exact hs
      · right; right; right; right; right; right; exact hs

theorem stc__dds_layer_loop_none_of (bi : stc__block_info)
    (arrayIdx faceIdx mipIdx sliceIdx : Int) (numFaces numSlices mips : Nat) (w0 h0 : Int) :
    ∀ (fuel l0 : Nat) (off : Int),
      (arrayIdx < (l0 : Int) ∨ (l0 : Int) + fuel ≤ arrayIdx ∨
       faceIdx < 0 ∨ (numFaces : Int) ≤ faceIdx ∨
       mipIdx < 0 ∨ (mips : Int) ≤ mipIdx ∨ sliceIdx < 0 ∨ (numSlices : Int) ≤ sliceIdx) →
      (stc__dds_layer_loop bi arrayIdx faceIdx mipIdx sliceIdx numFaces numSlices mips w0 h0 fuel l0 off).1 = none := by
  intro fuel
  induction fuel with
  | zero => intro l0 off _; simp [stc__dds_layer_loop]
  | succ n ih =>
    intro l0 off hc
    rw [stc__dds_layer_loop]
    apply stc__walk_step_fst_none
    · apply stc__dds_face_loop_none_of
      rcases hc with hl | hl | hrest
      · left
        have : ((l0 : Nat) : Int) ≠ arrayIdx := by omega
        simp [this]
      · left
        have : ((l0 : Nat) : Int) ≠ arrayIdx := by push_cast at hl ⊢; omega
        simp [this]
      · right
        rcases hrest with hx | hx | hx | hx | hx | hx
        · left; omega
        · right; left; omega
        · right; right; left; exact hx
        · right; right; right; left; exact hx
        · right; right; right; right; left; exact hx
        · right; right; right; right; right; exact hx
    · intro off2
      apply ih
      rcases hc with hl | hl | hrest
      · left; omega
      · right; left; push_cast at hl ⊢; omega
      · right; right; exact hrest

theorem stc__ktx_face_loop_none_of (layerHit : Bool) (faceIdx sliceIdx : Int)
    (w2 h2 ms rp : Int) (numSlices : Nat) :
    ∀ (fuel f0 : Nat) (off : Int),
      (layerHit = false ∨ faceIdx < (f0 : Int) ∨ (f0 : Int) + fuel ≤ faceIdx ∨
       sliceIdx < 0 ∨ (numSlices : Int) ≤ sliceIdx) →
      (stc__ktx_face_loop layerHit faceIdx sliceIdx w2 h2 ms rp numSlices fuel f0 off).1 = none := by
  intro fuel
  induction fuel with
  | zero => intro f0 off _; simp [stc__ktx_face_loop]
  | succ n ih =>
    intro f0 off hc
    rw [stc__ktx_face_loop]
    apply stc__walk_step_fst_none
    · apply stc__sub_slice_loop_none_of
      rcases hc with hf | hm | hm | hs | hs
      · left; simp [hf]
      · left
        have : faceIdx ≠ ((f0 : Nat) : Int) := by omega
        simp [this]
      · left
        have : faceIdx ≠ ((f0 : Nat) : Int) := by push_cast at hm ⊢; omega
        simp [this]
      · right; left; omega
      · right; right; omega
    · intro off2
      apply ih
      rcases hc with hf | hm | hm | hs | hs
      · exact Or.inl hf
      · right; left; omega
      · right; right; left; push_cast at hm ⊢; omega
      · right; right; right; left; exact hs
      · right; right; right; right; exact hs

theorem stc__ktx_layer_loop_none_of (mipHit : Bool) (arrayIdx faceIdx sliceIdx : Int)
    (w2 h2 ms rp : Int) (numFaces numSlices : Nat) :
    ∀ (fuel l0 : Nat) (off : Int),
      (mipHit = false ∨ arrayIdx < (l0 : Int) ∨ (l0 : Int) + fuel ≤ arrayIdx ∨
       faceIdx < 0 ∨ (numFaces : Int) ≤ faceIdx ∨ sliceIdx < 0 ∨ (numSlices : Int) ≤ sliceIdx) →
      (stc__ktx_layer_loop mipHit arrayIdx faceIdx sliceIdx w2 h2 ms rp numFaces numSlices fuel l0 off).1 = none := by
  intro fuel
  induction fuel with
  | zero => intro l0 off _; simp [stc__ktx_layer_loop]
  | succ n ih =>
    intro l0 off hc
    rw [stc__ktx_layer_loop]
    apply stc__walk_step_fst_none
    · apply stc__ktx_face_loop_none_of
      rcases hc with hf | hl | hl | hx | hx | hs | hs
      · left; simp [hf]
      · left
        have : ((l0 : Nat) : Int) ≠ arrayIdx := by omega
        simp [this]
      · left
        have : ((l0 : Nat) : Int) ≠ arrayIdx := by push_cast at hl ⊢; omega
        simp [this]
      · right; left; omega
      · right; right; left; omega
      · right; right; right; left; exact hs
      · right; right; right; right; exact hs
    · intro off2
      apply ih
      rcases hc with hf | hl | hl | hx | hx | hs | hs
      · exact Or.inl hf
      · right; left; omega
      · right; right; left; push_cast at hl ⊢; omega
      · right; right; right; left; exact hx
      · right; right; right; right; left; exact hx
      · right; right; right; right; right; left; exact hs
      · right; right; right; right; right; right; exact hs

theorem stc__ktx_mip_loop_none_of (bi : stc__block_info) (buf : List Nat) (total : Int)
    (arrayIdx faceIdx mipIdx sliceIdx : Int) (numLayers numFaces numSlices : Nat) :
    ∀ (fuel m0 : Nat) (w h off : Int),
      (mipIdx < (m0 : Int) ∨ (m0 : Int) + fuel ≤ mipIdx ∨
       arrayIdx < 0 ∨ (numLayers : Int) ≤ arrayIdx ∨
       faceIdx < 0 ∨ (numFaces : Int) ≤ faceIdx ∨ sliceIdx < 0 ∨ (numSlices : Int) ≤ sliceIdx) →
      (stc__ktx_mip_loop bi buf total arrayIdx faceIdx mipIdx sliceIdx numLayers numFaces numSlices fuel m0 w h off).1 = none := by
  intro fuel
  induction fuel with
  | zero => intro m0 w h off _; simp [stc__ktx_mip_loop]
  | succ n ih =>
    intro m0 w h off hc
    rw [stc__ktx_mip_loop]
    apply stc__walk_step_fst_none
    · apply stc__ktx_layer_loop_none_of
      rcases hc with hm | hm | hrest
      · left
        have : ((m0 : Nat) : Int) ≠ mipIdx := by omega
        simp [this]
      · left
        have : ((m0 : Nat) : Int) ≠ mipIdx := by push_cast at hm ⊢; omega
        simp [this]
      · right
        rcases hrest with hx | hx | hx | hx | hx | hx
        · left; omega
        · right; left; omega
        · right; right; left; exact hx
        · right; right; right; left; exact hx
        · right; right; right; right; left; exact hx
        · right; right; right; right; right; exact hx
    · intro off2
      apply ih
      rcases hc with hm | hm | hrest
      · left; omega
      · right; left; push_cast at hm ⊢; omega
      · right; right; exact hrest

theorem getD_congr_of_ne {α : Type} {X : Option α} {s0 s1 : α}
    (h : X.getD s0 ≠ s0) : X.getD s1 = X.getD s0 := by
  cases X
  · simp at h
  · rfl

/-- C10: `stc_get_sub` writes the caller's `stc_sub_data` only at the single
walk position matching the request and returns immediately (modelled as the
walk producing an `Option` that overrides `sub0`): when the request indices
are outside the walked ranges, the caller's record comes back bit-identical;
and whenever the record was written, the value written is independent of its
prior contents. -/
theorem claim10_frame_effect (tc : stc_texture_container) (sub0 : stc_sub_data)
    (buf : List Nat) (size : Int) (a s m : Int) :
    (¬ stc__sub_in_range tc a s m → stc_get_sub tc sub0 buf size a s m = sub0) ∧
    (∀ sub1, stc_get_sub tc sub0 buf size a s m ≠ sub0 →
      stc_get_sub tc sub1 buf size a s m = stc_get_sub tc sub0 buf size a s m) := by
  constructor
  · intro hnr
    simp only [stc__sub_in_range] at hnr
    simp only [stc_get_sub]
    by_cases hcube : tc.flags &&& 1 ≠ 0
    · simp only [if_pos hcube] at hnr ⊢
      by_cases hdds : tc.flags &&& 8 ≠ 0
      · rw [if_pos hdds]
        rw [stc__dds_layer_loop_none_of _ _ _ _ _ _ _ _ _ _ _ _ _ (by omega)]
        rfl
      · rw [if_neg hdds]
        by_cases hktx : tc.flags &&& 16 ≠ 0
        · rw [if_pos hktx]
          rw [stc__ktx_mip_loop_none_of _ _ _ _ _ _ _ _ _ _ _ _ _ _ _ (by omega)]
          rfl
        · rw [if_neg hktx]
    · simp only [if_neg hcube] at hnr ⊢
      by_cases hdds : tc.flags &&& 8 ≠ 0
      · rw [if_pos hdds]
        rw [stc__dds_layer_loop_none_of _ _ _ _ _ _ _ _ _ _ _ _ _ (by omega)]
        rfl
      · rw [if_neg hdds]
        by_cases hktx : tc.flags &&& 16 ≠ 0
        · rw [if_pos hktx]
          rw [stc__ktx_mip_loop_none_of _ _ _ _ _ _ _ _ _ _ _ _ _ _ _ (by omega)]
          rfl
        · rw [if_neg hktx]
  · intro sub1 hne
    simp only [stc_get_sub] at hne ⊢
    by_cases hdds : tc.flags &&& 8 ≠ 0
    · simp only [if_pos hdds] at hne ⊢
      exact getD_congr_of_ne hne
    · simp only [if_neg hdds] at hne ⊢
      by_cases hktx : tc.flags &&& 16 ≠ 0
      · simp only [if_pos hktx] at hne ⊢
        exact getD_congr_of_ne hne
      · simp only [if_neg hktx] at hne
        exact absurd rfl hne

/-- Witness for C10: layer index 5 is out of range for the one-layer
`tcBC1` descriptor, and the prefilled sub-data record is returned
untouched. -/
theorem claim10_frame_effect_witness :
    ¬ stc__sub_in_range tcBC1 5 0 0 ∧
    stc_get_sub tcBC1 ⟨7, 7, 7, 7, 7⟩ ddsBC1 136 5 0 0 = ⟨7, 7, 7, 7, 7⟩ :=
  ⟨by decide,
   (claim10_frame_effect tcBC1 ⟨7, 7, 7, 7, 7⟩ ddsBC1 136 5 0 0).1 (by decide)⟩

def stc__bi_ok (bi : stc__block_info) : Prop :=
  1 ≤ bi.block_width ∧ 1 ≤ bi.block_height ∧ 0 ≤ bi.block_size ∧
  1 ≤ bi.min_block_x ∧ 1 ≤ bi.min_block_y

instance (bi : stc__block_info) : Decidable (stc__bi_ok bi) := by
  unfold stc__bi_ok
  infer_instance

theorem k__block_info_ok (f : Fin 45) (hs : f.val ≠ 26) :
    stc__bi_ok (k__block_info.getD f.val default) := by
  revert f
  decide

theorem stc__resolve_dds_format_ok (dx : Nat) (hdr : stc__dds_header) :
    (stc__resolve_dds_format dx hdr).1 ≠ STC_FORMAT_COUNT →
    (stc__resolve_dds_format dx hdr).1 < 45 ∧ (stc__resolve_dds_format dx hdr).1 ≠ 26 := by
  have hall1 : ∀ e ∈ k__translate_dds_fourcc, e.format < 45 ∧ e.format ≠ 26 := by decide
  have hall2 : ∀ e ∈ k__translate_dds_pixel, e.format < 45 ∧ e.format ≠ 26 := by decide
  have hall3 : ∀ e ∈ k__translate_dxgi, e.format < 45 ∧ e.format ≠ 26 := by decide
  unfold stc__resolve_dds_format
  split
  · split
    · split
      · rename_i e heq
        exact fun _ => hall1 e (List.mem_of_find?_eq_some heq)
      · exact fun hh => absurd rfl hh
    · split
      · rename_i e heq
        exact fun _ => hall2 e (List.mem_of_find?_eq_some heq)
      · exact fun hh => absurd rfl hh
  · split
    · rename_i e heq
      exact fun _ => hall3 e (List.mem_of_find?_eq_some heq)
    · exact fun hh => absurd rfl hh

theorem lor_eight_land_eight_ne (n : Nat) : (n ||| 8) &&& 8 ≠ 0 := by
  intro h
  have h3 : ((n ||| 8) &&& 8).testBit 3 = false := by rw [h]; simp
  rw [Nat.testBit_and, Nat.testBit_or] at h3
  simp at h3
  exact absurd (h3 (Or.inr (by decide))) (by decide)

theorem dds_adjust_pos {blockDim minBlocks : Int} (hbd : 1 ≤ blockDim)
    (hmb : 1 ≤ minBlocks) (x : Int) : 1 ≤ dds_adjust blockDim minBlocks x := by
  unfold dds_adjust stc__max
  split
  · nlinarith
  · nlinarith

theorem stc__mip_size_nonneg {bi : stc__block_info} (hbi : stc__bi_ok bi)
    {w2 h2 : Int} (hw : 0 ≤ w2) (hh : 0 ≤ h2) : 0 ≤ stc__mip_size bi w2 h2 := by
  obtain ⟨hbw, hbh, hbs, -, -⟩ := hbi
  unfold stc__mip_size
  have h1 : 0 ≤ Int.tdiv w2 bi.block_width := Int.tdiv_nonneg hw (by omega)
  have h2' : 0 ≤ Int.tdiv w2 bi.block_width * h2 := mul_nonneg h1 hh
  have h3 : 0 ≤ Int.tdiv (Int.tdiv w2 bi.block_width * h2) bi.block_height :=
    Int.tdiv_nonneg h2' (by omega)
  exact mul_nonneg h3 hbs

theorem stc__dds_chain_total_nonneg (bi : stc__block_info) (hbi : stc__bi_ok bi)
    (numSlices : Nat) : ∀ (fuel : Nat) (w h : Int),
    0 ≤ stc__dds_chain_total bi numSlices fuel w h := by
  intro fuel
  induction fuel with
  | zero => intro w h; simp [stc__dds_chain_total]
  | succ n ih =>
    intro w h
    rw [stc__dds_chain_total]
    have hw : (0:Int) ≤ dds_adjust bi.block_width bi.min_block_x w := by
      have := dds_adjust_pos hbi.1 hbi.2.2.2.1 w
      omega
    have hh : (0:Int) ≤ dds_adjust bi.block_height bi.min_block_y h := by
      have := dds_adjust_pos hbi.2.1 hbi.2.2.2.2 h
      omega
    have hms := stc__mip_size_nonneg hbi hw hh
    have hns : (0:Int) ≤ (numSlices : Int) := Int.natCast_nonneg numSlices
    have := ih (sar1 (dds_adjust bi.block_width bi.min_block_x w))
      (sar1 (dds_adjust bi.block_height bi.min_block_y h))
    nlinarith

theorem stc__sub_slice_loop_none_end (hit : Bool) (sliceIdx w h ms rp : Int) :
    ∀ (fuel s0 : Nat) (off : Int),
      (stc__sub_slice_loop hit sliceIdx w h ms rp fuel s0 off).1 = none →
      (stc__sub_slice_loop hit sliceIdx w h ms rp fuel s0 off).2 = off + fuel * ms := by
  intro fuel
  induction fuel with
  | zero => intro s0 off _; simp [stc__sub_slice_loop]
  | succ n ih =>
    intro s0 off hn
    rw [stc__sub_slice_loop] at hn ⊢
    split at hn
    · exact absurd hn (by simp)
    · rename_i hcond
      rw [if_neg hcond, ih (s0+1) (off + ms) hn]
      push_cast
      ring

theorem stc__sub_slice_loop_bounds (hit : Bool) (sliceIdx w h ms rp : Int) (hms : 0 ≤ ms) :
    ∀ (fuel s0 : Nat) (off : Int) (v : stc_sub_data) (off2 : Int),
      stc__sub_slice_loop hit sliceIdx w h ms rp fuel s0 off = (some v, off2) →
      off ≤ v.buffOff ∧ v.buffOff + v.size_bytes ≤ off + fuel * ms := by
  intro fuel
  induction fuel with
  | zero =>
    intro s0 off v off2 hv
    exact absurd (congrArg Prod.fst hv) (by simp [stc__sub_slice_loop])
  | succ n ih =>
    intro s0 off v off2 hv
    rw [stc__sub_slice_loop] at hv
    split at hv
    · have hv1 := congrArg Prod.fst hv
      simp only [Option.some.injEq] at hv1
      have hnm : (0:Int) ≤ (n:Int) * ms := mul_nonneg (Int.natCast_nonneg n) hms
      rw [← hv1]
      refine ⟨le_refl off, ?_⟩
      show off + ms ≤ off + ((n:Nat)+1 : Nat) * ms
      push_cast
      nlinarith
    · have := ih (s0+1) (off + ms) v off2 hv
      have hnm : (0:Int) ≤ (n:Int) * ms := mul_nonneg (Int.natCast_nonneg n) hms
      constructor
      · omega
      · have h2 := this.2
        push_cast
        push_cast at h2
        nlinarith

theorem stc__walk_step_cases (p : Option stc_sub_data × Int) (k : Int → Option stc_sub_data × Int) :
    (p.1 = none ∧ stc__walk_step p k = k p.2) ∨
    (∃ v, p.1 = some v ∧ stc__walk_step p k = p) := by
  rcases p with ⟨res, off⟩
  cases res
  · exact Or.inl ⟨rfl, rfl⟩
  · exact Or.inr ⟨_, rfl, rfl⟩

theorem stc__dds_mip_loop_none_end (bi : stc__block_info) (faceHit : Bool)
    (mipIdx sliceIdx : Int) (numSlices : Nat) :
    ∀ (fuel m0 : Nat) (w h off : Int),
      (stc__dds_mip_loop bi faceHit mipIdx sliceIdx numSlices fuel m0 w h off).1 = none →
      (stc__dds_mip_loop bi faceHit mipIdx sliceIdx numSlices fuel m0 w h off).2 =
        off + stc__dds_chain_total bi numSlices fuel w h := by
  intro fuel
  induction fuel with
  | zero => intro m0 w h off _; simp [stc__dds_mip_loop, stc__dds_chain_total]
  | succ n ih =>
    intro m0 w h off hn
    simp only [stc__dds_mip_loop] at hn ⊢
    simp only [stc__dds_chain_total]
    set w2 := dds_adjust bi.block_width bi.min_block_x w with hw2
    set h2 := dds_adjust bi.block_height bi.min_block_y h with hh2
    rcases stc__walk_step_cases
        (stc__sub_slice_loop (faceHit && ((m0 : Int) == mipIdx)) sliceIdx w2 h2
          (stc__mip_size bi w2 h2) (stc__row_pitch bi w2) numSlices 0 off)
        (stc__dds_mip_loop bi faceHit mipIdx sliceIdx numSlices n (m0+1) (sar1 w2) (sar1 h2))
      with ⟨hp1, hp2⟩ | ⟨v, hp1, hp2⟩
    · rw [hp2] at hn ⊢
      rw [stc__sub_slice_loop_none_end _ _ _ _ _ _ _ _ _ hp1] at hn ⊢
      rw [ih (m0+1) (sar1 w2) (sar1 h2) _ hn]
      ring
    · rw [hp2] at hn
      rw [hp1] at hn
      exact Option.noConfusion hn

theorem stc__dds_mip_loop_bounds (bi : stc__block_info) (hbi : stc__bi_ok bi)
    (faceHit : Bool) (mipIdx sliceIdx : Int) (numSlices : Nat) :
    ∀ (fuel m0 : Nat) (w h off : Int) (v : stc_sub_data) (off2 : Int),
      stc__dds_mip_loop bi faceHit mipIdx sliceIdx numSlices fuel m0 w h off = (some v, off2) →
      off ≤ v.buffOff ∧
      v.buffOff + v.size_bytes ≤ off + stc__dds_chain_total bi numSlices fuel w h := by
  intro fuel
  induction fuel with
  | zero =>
    intro m0 w h off v off2 hv
    exact absurd (congrArg Prod.fst hv) (by simp [stc__dds_mip_loop])
  | succ n ih =>
    intro m0 w h off v off2 hv
    simp only [stc__dds_mip_loop] at hv
    simp only [stc__dds_chain_total]
    set w2 := dds_adjust bi.block_width bi.min_block_x w with hw2
    set h2 := dds_adjust bi.block_height bi.min_block_y h with hh2
    have hw2p : (0:Int) ≤ w2 := by
      have := dds_adjust_pos hbi.1 hbi.2.2.2.1 w
      omega
    have hh2p : (0:Int) ≤ h2 := by
      have := dds_adjust_pos hbi.2.1 hbi.2.2.2.2 h
      omega
    have hms : (0:Int) ≤ stc__mip_size bi w2 h2 := stc__mip_size_nonneg hbi hw2p hh2p
    have hnsms : (0:Int) ≤ (numSlices : Int) * stc__mip_size bi w2 h2 :=
      mul_nonneg (Int.natCast_nonneg numSlices) hms
    have hchain := stc__dds_chain_total_nonneg bi hbi numSlices n (sar1 w2) (sar1 h2)
    rcases stc__walk_step_cases
        (stc__sub_slice_loop (faceHit && ((m0 : Int) == mipIdx)) sliceIdx w2 h2
          (stc__mip_size bi w2 h2) (stc__row_pitch bi w2) numSlices 0 off)
        (stc__dds_mip_loop bi faceHit mipIdx sliceIdx numSlices n (m0+1) (sar1 w2) (sar1 h2))
      with ⟨hp1, hp2⟩ | ⟨u, hp1, hp2⟩
    · rw [hp2] at hv
      rw [stc__sub_slice_loop_none_end _ _ _ _ _ _ _ _ _ hp1] at hv
      have := ih (m0+1) (sar1 w2) (sar1 h2) _ v off2 hv
      constructor
      · linarith [this.1]
      · linarith [this.2]
    · rw [hp2] at hv
      rw [hv] at hp1
      have hb := stc__sub_slice_loop_bounds (faceHit && ((m0 : Int) == mipIdx)) sliceIdx w2 h2
        (stc__mip_size bi w2 h2) (stc__row_pitch bi w2) hms numSlices 0 off v off2 hv
      constructor
      · exact hb.1
      · have h2b := hb.2
        push_cast at h2b
        linarith

theorem stc__dds_face_loop_none_end (bi : stc__block_info) (layerHit : Bool)
    (faceIdx mipIdx sliceIdx : Int) (numSlices mips : Nat) (w0 h0 : Int) :
    ∀ (fuel f0 : Nat) (off : Int),
      (stc__dds_face_loop bi layerHit faceIdx mipIdx sliceIdx numSlices mips w0 h0 fuel f0 off).1 = none →
      (stc__dds_face_loop bi layerHit faceIdx mipIdx sliceIdx numSlices mips w0 h0 fuel f0 off).2 =
        off + fuel * stc__dds_chain_total bi numSlices mips w0 h0 := by
  intro fuel
  induction fuel with
  | zero => intro f0 off _; simp [stc__dds_face_loop]
  | succ n ih =>
    intro f0 off hn
    simp only [stc__dds_face_loop] at hn ⊢
    rcases stc__walk_step_cases
        (stc__dds_mip_loop bi (layerHit && (faceIdx == (f0 : Int))) mipIdx sliceIdx
          numSlices mips 0 w0 h0 off)
        (stc__dds_face_loop bi layerHit faceIdx mipIdx sliceIdx numSlices mips w0 h0 n (f0+1))
      with ⟨hp1, hp2⟩ | ⟨v, hp1, hp2⟩
    · rw [hp2] at hn ⊢
      rw [stc__dds_mip_loop_none_end _ _ _ _ _ _ _ _ _ _ hp1] at hn ⊢
      rw [ih (f0+1) _ hn]
      push_cast
      ring
    · rw [hp2] at hn
      rw [hp1] at hn
      exact Option.noConfusion hn

theorem stc__dds_face_loop_bounds (bi : stc__block_info) (hbi : stc__bi_ok bi)
    (layerHit : Bool) (faceIdx mipIdx sliceIdx : Int) (numSlices mips : Nat) (w0 h0 : Int) :
    ∀ (fuel f0 : Nat) (off : Int) (v : stc_sub_data) (off2 : Int),
      stc__dds_face_loop bi layerHit faceIdx mipIdx sliceIdx numSlices mips w0 h0 fuel f0 off = (some v, off2) →
      off ≤ v.buffOff ∧
      v.buffOff + v.size_bytes ≤ off + fuel * stc__dds_chain_total bi numSlices mips w0 h0 := by
  intro fuel
  induction fuel with
  | zero =>
    intro f0 off v off2 hv
    exact absurd (congrArg Prod.fst hv) (by simp [stc__dds_face_loop])
  | succ n ih =>
    intro f0 off v off2 hv
    simp only [stc__dds_face_loop] at hv
    have hchain := stc__dds_chain_total_nonneg bi hbi numSlices mips w0 h0
    have hnchain : (0:Int) ≤ (n : Int) * stc__dds_chain_total bi numSlices mips w0 h0 :=
      mul_nonneg (Int.natCast_nonneg n) hchain
    rcases stc__walk_step_cases
        (stc__dds_mip_loop bi (layerHit && (faceIdx == (f0 : Int))) mipIdx sliceIdx
          numSlices mips 0 w0 h0 off)
        (stc__dds_face_loop bi layerHit faceIdx mipIdx sliceIdx numSlices mips w0 h0 n (f0+1))
      with ⟨hp1, hp2⟩ | ⟨u, hp1, hp2⟩
    · rw [hp2] at hv
      rw [stc__dds_mip_loop_none_end _ _ _ _ _ _ _ _ _ _ hp1] at hv
      have := ih (f0+1) _ v off2 hv
      constructor
      · linarith [this.1]
      · have h2 := this.2
        push_cast at h2 ⊢
        linarith
    · rw [hp2] at hv
      have hb := stc__dds_mip_loop_bounds bi hbi (layerHit && (faceIdx == (f0 : Int)))
        mipIdx sliceIdx numSlices mips 0 w0 h0 off v off2 hv
      constructor
      · exact hb.1
      · have h2 := hb.2
        push_cast
        linarith

theorem stc__dds_layer_loop_bounds (bi : stc__block_info) (hbi : stc__bi_ok bi)
    (arrayIdx faceIdx mipIdx sliceIdx : Int) (numFaces numSlices mips : Nat) (w0 h0 : Int) :
    ∀ (fuel l0 : Nat) (off : Int) (v : stc_sub_data) (off2 : Int),
      stc__dds_layer_loop bi arrayIdx faceIdx mipIdx sliceIdx numFaces numSlices mips w0 h0 fuel l0 off = (some v, off2) →
      off ≤ v.buffOff ∧
      v.buffOff + v.size_bytes ≤
        off + fuel * ((numFaces : Int) * stc__dds_chain_total bi numSlices mips w0 h0) := by
  intro fuel
  induction fuel with
  | zero =>
    intro l0 off v off2 hv
    exact absurd (congrArg Prod.fst hv) (by simp [stc__dds_layer_loop])
  | succ n ih =>
    intro l0 off v off2 hv
    simp only [stc__dds_layer_loop] at hv
    have hchain := stc__dds_chain_total_nonneg bi hbi numSlices mips w0 h0
    have hfchain : (0:Int) ≤ (numFaces : Int) * stc__dds_chain_total bi numSlices mips w0 h0 :=
      mul_nonneg (Int.natCast_nonneg numFaces) hchain
    have hnf : (0:Int) ≤ (n : Int) * ((numFaces : Int) * stc__dds_chain_total bi numSlices mips w0 h0) :=
      mul_nonneg (Int.natCast_nonneg n) hfchain
    rcases stc__walk_step_cases
        (stc__dds_face_loop bi (((l0 : Int)) == arrayIdx) faceIdx mipIdx sliceIdx
          numSlices mips w0 h0 numFaces 0 off)
        (stc__dds_layer_loop bi arrayIdx faceIdx mipIdx sliceIdx numFaces numSlices mips w0 h0 n (l0+1))
      with ⟨hp1, hp2⟩ | ⟨u, hp1, hp2⟩
    · rw [hp2] at hv
      rw [stc__dds_face_loop_none_end _ _ _ _ _ _ _ _ _ _ _ _ hp1] at hv
      have := ih (l0+1) _ v off2 hv
      constructor
      · linarith [this.1]
      · have h2 := this.2
        push_cast at h2 ⊢
        linarith
    · rw [hp2] at hv
      have hb := stc__dds_face_loop_bounds bi hbi (((l0 : Int)) == arrayIdx)
        faceIdx mipIdx sliceIdx numSlices mips w0 h0 numFaces 0 off v off2 hv
      constructor
      · exact hb.1
      · have h2 := hb.2
        push_cast at h2 ⊢
        linarith

theorem stc__walk_step_isSome {p : Option stc_sub_data × Int}
    (k : Int → Option stc_sub_data × Int) (hp : p.1.isSome = true) :
    (stc__walk_step p k).1.isSome = true := by
  rcases p with ⟨res, off⟩
  cases res
  · exact absurd hp (by simp)
  · rfl

theorem stc__sub_slice_loop_isSome (hit : Bool) (sliceIdx w h ms rp : Int) :
    ∀ (fuel s0 : Nat) (off : Int),
      hit = true → (s0 : Int) ≤ sliceIdx → sliceIdx < (s0 : Int) + fuel →
      (stc__sub_slice_loop hit sliceIdx w h ms rp fuel s0 off).1.isSome = true := by
  intro fuel
  induction fuel with
  | zero => intro s0 off _ _ _; omega
  | succ n ih =>
    intro s0 off hhit hlo hhi
    rw [stc__sub_slice_loop]
    by_cases heq : ((s0 : Nat) : Int) = sliceIdx
    · have hb : (hit && ((s0 : Int) == sliceIdx)) = true := by simp [hhit, heq]
      rw [hb]
      simp
    · have hb : (hit && ((s0 : Int) == sliceIdx)) = false := by simp [heq]
      rw [hb]
      simp only [Bool.false_eq_true, if_false]
      apply ih (s0+1) (off + ms) hhit
      · push_cast
        omega
      · push_cast
        push_cast at hhi
        omega

theorem stc__dds_mip_loop_isSome (bi : stc__block_info) (faceHit : Bool)
    (mipIdx sliceIdx : Int) (numSlices : Nat) :
    ∀ (fuel m0 : Nat) (w h off : Int),
      faceHit = true → (m0 : Int) ≤ mipIdx → mipIdx < (m0 : Int) + fuel →
      0 ≤ sliceIdx → sliceIdx < (numSlices : Int) →
      (stc__dds_mip_loop bi faceHit mipIdx sliceIdx numSlices fuel m0 w h off).1.isSome = true := by
  intro fuel
  induction fuel with
  | zero => intro m0 w h off _ _ _ _ _; omega
  | succ n ih =>
    intro m0 w h off hhit hlo hhi hs0 hs1
    simp only [stc__dds_mip_loop]
    by_cases heq : ((m0 : Nat) : Int) = mipIdx
    · apply stc__walk_step_isSome
      apply stc__sub_slice_loop_isSome
      · simp [hhit, heq]
      · exact hs0
      · push_cast
        omega
    · have hb : (faceHit && ((m0 : Int) == mipIdx)) = false := by simp [heq]
      rcases stc__walk_step_cases
          (stc__sub_slice_loop (faceHit && ((m0 : Int) == mipIdx)) sliceIdx
            (dds_adjust bi.block_width bi.min_block_x w)
            (dds_adjust bi.block_height bi.min_block_y h)
            (stc__mip_size bi (dds_adjust bi.block_width bi.min_block_x w)
              (dds_adjust bi.block_height bi.min_block_y h))
            (stc__row_pitch bi (dds_adjust bi.block_width bi.min_block_x w)) numSlices 0 off)
          (stc__dds_mip_loop bi faceHit mipIdx sliceIdx numSlices n (m0+1)
            (sar1 (dds_adjust bi.block_width bi.min_block_x w))
            (sar1 (dds_adjust bi.block_height bi.min_block_y h)))
        with ⟨hp1, hp2⟩ | ⟨u, hp1, hp2⟩
      · rw [hp2]
        apply ih (m0+1) _ _ _ hhit
        · push_cast
          omega
        · push_cast
          push_cast at hhi
          omega
        · exact hs0
        · exact hs1
      · have := stc__sub_slice_loop_none_of (faceHit && ((m0 : Int) == mipIdx)) sliceIdx
          (dds_adjust bi.block_width bi.min_block_x w)
          (dds_adjust bi.block_height bi.min_block_y h)
          (stc__mip_size bi (dds_adjust bi.block_width bi.min_block_x w)
            (dds_adjust bi.block_height bi.min_block_y h))
          (stc__row_pitch bi (dds_adjust bi.block_width bi.min_block_x w)) numSlices 0 off
          (Or.inl hb)
        rw [hp1] at this
        exact Option.noConfusion this

theorem stc__dds_face_loop_isSome (bi : stc__block_info) (layerHit : Bool)
    (faceIdx mipIdx sliceIdx : Int) (numSlices mips : Nat) (w0 h0 : Int) :
    ∀ (fuel f0 : Nat) (off : Int),
      layerHit = true → (f0 : Int) ≤ faceIdx → faceIdx < (f0 : Int) + fuel →
      0 ≤ mipIdx → mipIdx < (mips : Int) →
      0 ≤ sliceIdx → sliceIdx < (numSlices : Int) →
      (stc__dds_face_loop bi layerHit faceIdx mipIdx sliceIdx numSlices mips w0 h0 fuel f0 off).1.isSome = true := by
  intro fuel
  induction fuel with
  | zero => intro f0 off _ _ _ _ _ _ _; omega
  | succ n ih =>
    intro f0 off hhit hlo hhi hm0 hm1 hs0 hs1
    simp only [stc__dds_face_loop]
    by_cases heq : faceIdx = ((f0 : Nat) : Int)
    · apply stc__walk_step_isSome
      apply stc__dds_mip_loop_isSome
      · simp [hhit, heq]
      · exact hm0
      · push_cast
        omega
      · exact hs0
      · exact hs1
    · have hb : (layerHit && (faceIdx == (f0 : Int))) = false := by simp [heq]
      rcases stc__walk_step_cases
          (stc__dds_mip_loop bi (layerHit && (faceIdx == (f0 : Int))) mipIdx sliceIdx
            numSlices mips 0 w0 h0 off)
          (stc__dds_face_loop bi layerHit faceIdx mipIdx sliceIdx numSlices mips w0 h0 n (f0+1))
        with ⟨hp1, hp2⟩ | ⟨u, hp1, hp2⟩
      · rw [hp2]
        apply ih (f0+1) _ hhit
        · push_cast
          omega
        · push_cast
          push_cast at hhi
          omega
        · exact hm0
        · exact hm1
        · exact hs0
        · exact hs1
      · have := stc__dds_mip_loop_none_of bi (layerHit && (faceIdx == (f0 : Int)))
          mipIdx sliceIdx numSlices mips 0 w0 h0 off (Or.inl hb)
        rw [hp1] at this
        exact Option.noConfusion this

theorem stc__dds_layer_loop_isSome (bi : stc__block_info)
    (arrayIdx faceIdx mipIdx sliceIdx : Int) (numFaces numSlices mips : Nat) (w0 h0 : Int) :
    ∀ (fuel l0 : Nat) (off : Int),
      (l0 : Int) ≤ arrayIdx → arrayIdx < (l0 : Int) + fuel →
      0 ≤ faceIdx → faceIdx < (numFaces : Int) →
      0 ≤ mipIdx → mipIdx < (mips : Int) →
      0 ≤ sliceIdx → sliceIdx < (numSlices : Int) →
      (stc__dds_layer_loop bi arrayIdx faceIdx mipIdx sliceIdx numFaces numSlices mips w0 h0 fuel l0 off).1.isSome = true := by
  intro fuel
  induction fuel with
  | zero => intro l0 off _ _ _ _ _ _ _ _; omega
  | succ n ih =>
    intro l0 off hlo hhi hf0 hf1 hm0 hm1 hs0 hs1
    simp only [stc__dds_layer_loop]
    by_cases heq : ((l0 : Nat) : Int) = arrayIdx
    · apply stc__walk_step_isSome
      apply stc__dds_face_loop_isSome
      · simp [heq]
      · exact hf0
      · push_cast
        omega
      · exact hm0
      · exact hm1
      · exact hs0
      · exact hs1
    · have hb : (((l0 : Int)) == arrayIdx) = false := by simp [heq]
      rcases stc__walk_step_cases
          (stc__dds_face_loop bi (((l0 : Int)) == arrayIdx) faceIdx mipIdx sliceIdx
            numSlices mips w0 h0 numFaces 0 off)
          (stc__dds_layer_loop bi arrayIdx faceIdx mipIdx sliceIdx numFaces numSlices mips w0 h0 n (l0+1))
        with ⟨hp1, hp2⟩ | ⟨u, hp1, hp2⟩
      · rw [hp2]
        apply ih (l0+1) _ _ _ hf0 hf1 hm0 hm1 hs0 hs1
        · push_cast
          omega
        · push_cast
          push_cast at hhi
          omega
      · have := stc__dds_face_loop_none_of bi (((l0 : Int)) == arrayIdx)
          faceIdx mipIdx sliceIdx numSlices mips w0 h0 numFaces 0 off (Or.inl hb)
        rw [hp1] at this
        exact Option.noConfusion this

theorem stc__dds_layer_loop_bounds_fst (bi : stc__block_info) (hbi : stc__bi_ok bi)
    (arrayIdx faceIdx mipIdx sliceIdx : Int) (numFaces numSlices mips : Nat) (w0 h0 : Int)
    (fuel l0 : Nat) (off : Int) (v : stc_sub_data)
    (hv : (stc__dds_layer_loop bi arrayIdx faceIdx mipIdx sliceIdx numFaces numSlices mips w0 h0 fuel l0 off).1 = some v) :
    off ≤ v.buffOff ∧
    v.buffOff + v.size_bytes ≤
      off + fuel * ((numFaces : Int) * stc__dds_chain_total bi numSlices mips w0 h0) := by
  apply stc__dds_layer_loop_bounds bi hbi arrayIdx faceIdx mipIdx sliceIdx numFaces numSlices
    mips w0 h0 fuel l0 off v
    (stc__dds_layer_loop bi arrayIdx faceIdx mipIdx sliceIdx numFaces numSlices mips w0 h0 fuel l0 off).2
  rw [← hv]

theorem dds_resolved_ok (buf junk : List Nat) :
    (dds_resolved buf junk).1 ≠ STC_FORMAT_COUNT →
    (dds_resolved buf junk).1 < 45 ∧ (dds_resolved buf junk).1 ≠ 26 := by
  unfold dds_resolved
  exact stc__resolve_dds_format_ok _ _

theorem stc_parse_true_inv (tc0 : stc_texture_container) (buf junk : List Nat)
    (em : Option String) (tc : stc_texture_container)
    (h : stc_parse tc0 buf junk = (true, em, tc)) :
    tc = dds_success_tc buf junk ∧ (dds_resolved buf junk).1 ≠ STC_FORMAT_COUNT := by
  simp only [stc_parse, stc__parse_dds] at h
  repeat' split at h
  all_goals
    first
      | exact Bool.noConfusion (congrArg Prod.fst h)
      | (simp only [Prod.mk.injEq] at h
         rename_i hfmt
         exact ⟨h.2.2.symm, hfmt⟩)

/-- C4 (amended): for every buffer on which `stc_parse` succeeds and every
in-range index triple, the sub-image view returned by `stc_get_sub` lies
entirely inside `[data_offset, data_offset + size_bytes)` PROVIDED the
payload is large enough to hold the full walk
(`stc__dds_walk_total tc ≤ tc.size_bytes`) — a condition the parser itself
never checks, which is what the counterexample exploits. -/
theorem claim4_amended (tc0 : stc_texture_container) (buf junk : List Nat)
    (em : Option String) (tc : stc_texture_container) (sub0 : stc_sub_data)
    (bufG : List Nat) (sizeG : Int) (a s m : Int)
    (h : stc_parse tc0 buf junk = (true, em, tc))
    (hin : stc__sub_in_range tc a s m)
    (htot : stc__dds_walk_total tc ≤ tc.size_bytes) :
    tc.data_offset ≤ (stc_get_sub tc sub0 bufG sizeG a s m).buffOff ∧
    (stc_get_sub tc sub0 bufG sizeG a s m).buffOff +
      (stc_get_sub tc sub0 bufG sizeG a s m).size_bytes ≤
      tc.data_offset + tc.size_bytes := by
  obtain ⟨htc, hfmt⟩ := stc_parse_true_inv tc0 buf junk em tc h
  have hok := dds_resolved_ok buf junk hfmt
  have hbi : stc__bi_ok (k__block_info.getD tc.format default) := by
    rw [htc]
    exact k__block_info_ok ⟨(dds_resolved buf junk).1, hok.1⟩ hok.2
  have hdds : tc.flags &&& 8 ≠ 0 := by
    rw [htc]
    show dds_flags_val buf junk &&& 8 ≠ 0
    unfold dds_flags_val
    exact lor_eight_land_eight_ne _
  simp only [stc__sub_in_range] at hin
  obtain ⟨ha0, ha1, hm0, hm1, hs0, hs1⟩ := hin
  simp only [stc_get_sub]
  rw [if_pos hdds]
  simp only [stc__dds_walk_total] at htot
  by_cases hcube : tc.flags &&& 1 ≠ 0
  · simp only [if_pos hcube] at hs1 htot ⊢
    have hsome := stc__dds_layer_loop_isSome (k__block_info.getD tc.format default)
      a s m 0 6 1 tc.num_mips.toNat tc.width tc.height tc.num_layers.toNat 0 tc.data_offset
      (by omega) (by omega) hs0 (by omega) hm0 (by omega) (by omega) (by omega)
    obtain ⟨v, hv⟩ := Option.isSome_iff_exists.mp hsome
    rw [hv]
    simp only [Option.getD_some]
    have hb := stc__dds_layer_loop_bounds_fst (k__block_info.getD tc.format default) hbi
      a s m 0 6 1 tc.num_mips.toNat tc.width tc.height tc.num_layers.toNat 0 tc.data_offset v hv
    exact ⟨hb.1, by linarith [hb.2, htot]⟩
  · simp only [if_neg hcube] at hs1 htot ⊢
    have hsome := stc__dds_layer_loop_isSome (k__block_info.getD tc.format default)
      a 0 m s 1 tc.depth.toNat tc.num_mips.toNat tc.width tc.height tc.num_layers.toNat 0 tc.data_offset
      (by omega) (by omega) (by omega) (by omega) hm0 (by omega) hs0 (by omega)
    obtain ⟨v, hv⟩ := Option.isSome_iff_exists.mp hsome
    rw [hv]
    simp only [Option.getD_some]
    have hb := stc__dds_layer_loop_bounds_fst (k__block_info.getD tc.format default) hbi
      a 0 m s 1 tc.depth.toNat tc.num_mips.toNat tc.width tc.height tc.num_layers.toNat 0 tc.data_offset v hv
    exact ⟨hb.1, by linarith [hb.2, htot]⟩

set_option maxRecDepth 40000 in
/-- C4 counterexample: `ddsTrunc` (a valid BC1 4x4 DDS header with the
pixel payload truncated away, `size_bytes = 0`) parses successfully, the
request (0,0,0) is in range, and the returned sub-image's byte range
[128, 136) falls entirely outside the payload span [128, 128). -/
theorem claim4_counterexample :
    (stc_parse zeroContainer ddsTrunc []).1 = true ∧
    stc__sub_in_range (stc_parse zeroContainer ddsTrunc []).2.2 0 0 0 ∧
    ¬ ((stc_get_sub (stc_parse zeroContainer ddsTrunc []).2.2 ⟨0, 0, 0, 0, 0⟩ ddsTrunc 128 0 0 0).buffOff +
       (stc_get_sub (stc_parse zeroContainer ddsTrunc []).2.2 ⟨0, 0, 0, 0, 0⟩ ddsTrunc 128 0 0 0).size_bytes ≤
       (stc_parse zeroContainer ddsTrunc []).2.2.data_offset +
       (stc_parse zeroContainer ddsTrunc []).2.2.size_bytes) := by
  refine ⟨by decide, by decide, by decide⟩

set_option maxRecDepth 40000 in
/-- Witness for C4 (amended) on the `ddsBC1` test file: the payload holds
the full 8-byte walk and the sub-image [128, 136) sits inside
[128, 136). -/
theorem claim4_amended_witness :
    tcBC1.data_offset ≤ (stc_get_sub tcBC1 ⟨7, 7, 7, 7, 7⟩ ddsBC1 136 0 0 0).buffOff ∧
    (stc_get_sub tcBC1 ⟨7, 7, 7, 7, 7⟩ ddsBC1 136 0 0 0).buffOff +
      (stc_get_sub tcBC1 ⟨7, 7, 7, 7, 7⟩ ddsBC1 136 0 0 0).size_bytes ≤
      tcBC1.data_offset + tcBC1.size_bytes :=
  claim4_amended zeroContainer ddsBC1 [] none tcBC1 ⟨7, 7, 7, 7, 7⟩ ddsBC1 136 0 0 0
    (by decide) (by decide) (by decide)
